import Mathlib

/-! # LearnOpenGL: model loader and shader program builder

A shallow embedding of `OpenGLTutorials/Model.cpp` and `OpenGLTutorials/Shader.cpp`.

* Every call into the graphics backend (OpenGL) and into stb_image is recorded, in
  program order, as a `Call` in `World.calls`; every line written to `std::cout` is
  recorded as a `Diag` in `World.out`.
* What an external library answers is not computed here: it is read from an `Env` of
  oracles. Handle-returning GL entry points receive the calls made so far, so that no
  assumption (freshness, monotonicity) is made about the handles the driver returns.
* C arrays with an element count are lists; an out-of-range or null read, which is
  undefined behaviour in the C++ program, makes the embedded function return `none`.
* A `float` is carried as its IEEE-754 binary32 bit pattern; the program only copies
  floats and never computes with them.
-/

namespace LearnOpenGL

/-! ## Scalar types and the constants of the GL headers -/

abbrev GLuint := Nat
abbrev GLint := Int
abbrev GLenum := Nat
/-- A `float`, as its binary32 bit pattern (`0` is `0.0f`). -/
abbrev GLfloat := Nat

def GL_FALSE : GLenum := 0
def GL_RED : GLenum := 0x1903
def GL_RGB : GLenum := 0x1907
def GL_RGBA : GLenum := 0x1908
def GL_TEXTURE_2D : GLenum := 0x0DE1
def GL_UNSIGNED_BYTE : GLenum := 0x1401
def GL_TEXTURE_MAG_FILTER : GLenum := 0x2800
def GL_TEXTURE_MIN_FILTER : GLenum := 0x2801
def GL_TEXTURE_WRAP_S : GLenum := 0x2802
def GL_TEXTURE_WRAP_T : GLenum := 0x2803
def GL_LINEAR : GLenum := 0x2601
def GL_LINEAR_MIPMAP_LINEAR : GLenum := 0x2703
def GL_FRAGMENT_SHADER : GLenum := 0x8B30
def GL_VERTEX_SHADER : GLenum := 0x8B31
def GL_GEOMETRY_SHADER : GLenum := 0x8DD9
def GL_COMPILE_STATUS : GLenum := 0x8B81
def GL_LINK_STATUS : GLenum := 0x8B82

/-- The value of `AI_SCENE_FLAGS_INCOMPLETE` in Assimp's `scene.h`. -/
def AI_SCENE_FLAGS_INCOMPLETE : Nat := 0x1

/-- The value of `std::string::npos` for a 64-bit `size_t`. -/
def npos : Nat := 2 ^ 64 - 1

/-! ## glm and the program's own records -/

structure Vec2 where
  x : GLfloat
  y : GLfloat
  deriving DecidableEq, Repr

structure Vec3 where
  x : GLfloat
  y : GLfloat
  z : GLfloat
  deriving DecidableEq, Repr

structure Vec4 where
  x : GLfloat
  y : GLfloat
  z : GLfloat
  w : GLfloat
  deriving DecidableEq, Repr

/-- A `glm::matN`: its `N * N` floats in memory (column-major) order, which is what
`&mat[0][0]` points at. -/
structure Mat where
  elems : List GLfloat
  deriving DecidableEq, Repr

/-- The floats `&value[0]` points at. -/
def Vec2.data (v : Vec2) : List GLfloat := [v.x, v.y]
def Vec3.data (v : Vec3) : List GLfloat := [v.x, v.y, v.z]
def Vec4.data (v : Vec4) : List GLfloat := [v.x, v.y, v.z, v.w]

structure Vertex where
  position : Vec3
  normal : Vec3
  texCoords : Vec2
  tangent : Vec3
  bitangent : Vec3
  deriving DecidableEq, Repr

structure Texture where
  id : GLuint
  type : String
  path : String
  deriving DecidableEq, Repr

/-- Modelled from the spec: the `Mesh` class (`Mesh.h`/`Mesh.cpp` are not among the
sources). A mesh is the three sequences its constructor is given; whatever backend calls
that constructor makes are not part of this development. -/
structure Mesh where
  vertices : List Vertex
  indices : List GLuint
  textures : List Texture
  deriving DecidableEq, Repr

/-! ## Assimp's scene, as far as the loader reads it -/

structure AiVector3D where
  x : GLfloat
  y : GLfloat
  z : GLfloat
  deriving DecidableEq, Repr

/-- An `aiFace`: `mIndices`, with `mNumIndices` its length. -/
structure AiFace where
  mIndices : List Nat
  deriving DecidableEq, Repr

/-- An `aiMesh`. `mNumVertices` is the length of `mVertices` and `mNumFaces` the length
of `mFaces`; the other per-vertex arrays are lists of their own length (a null array is
the empty list). `mTextureCoords k` is the `k`-th UV channel, `none` when that pointer
is null. -/
structure AiMesh where
  mVertices : List AiVector3D
  mNormals : List AiVector3D
  mTangents : List AiVector3D
  mBitangents : List AiVector3D
  mTextureCoords : Nat → Option (List AiVector3D)
  mFaces : List AiFace
  mMaterialIndex : Nat

def AiMesh.mNumVertices (mesh : AiMesh) : Nat := mesh.mVertices.length

inductive AiTextureType where
  | aiTextureType_DIFFUSE
  | aiTextureType_SPECULAR
  | aiTextureType_AMBIENT
  | aiTextureType_EMISSIVE
  | aiTextureType_HEIGHT
  | aiTextureType_NORMALS
  | aiTextureType_SHININESS
  | aiTextureType_OPACITY
  deriving DecidableEq, Repr

open AiTextureType

/-- An `aiMaterial`: for each slot the texture paths it lists, so that
`GetTextureCount type` is the length of `textures type` and `GetTexture type i` writes
its `i`-th entry. A path is the C string `aiString::C_Str` returns. -/
structure AiMaterial where
  textures : AiTextureType → List String

def AiMaterial.GetTextureCount (mat : AiMaterial) (type : AiTextureType) : Nat :=
  (mat.textures type).length

/-- An `aiNode`: `mMeshes` (indices into the scene's meshes, `mNumMeshes` its length)
and `mChildren` (`mNumChildren` its length). -/
inductive AiNode where
  | mk (mMeshes : List Nat) (mChildren : List AiNode) : AiNode

def AiNode.mMeshes : AiNode → List Nat
  | .mk ms _ => ms

def AiNode.mChildren : AiNode → List AiNode
  | .mk _ cs => cs

def AiNode.mNumMeshes (node : AiNode) : Nat := node.mMeshes.length

structure AiScene where
  mFlags : Nat
  mRootNode : Option AiNode
  mMeshes : List AiMesh
  mMaterials : List AiMaterial

inductive AiPostProcessSteps where
  | aiProcess_CalcTangentSpace
  | aiProcess_Triangulate
  | aiProcess_FlipUVs
  deriving DecidableEq, Repr

/-- What `stbi_load` hands back for a decodable file. -/
structure Image where
  width : Int
  height : Int
  nrComponents : Int
  data : List Nat
  deriving DecidableEq, Repr

/-! ## The outside world -/

/-- One call into an external library, with the arguments it was given (and, for the
handle-returning entry points, the value it returned). A `GLenum` argument of type
`Option` is a local variable passed by value: `none` when the program never assigned
it. -/
inductive Call where
  | glGenTextures (n : Nat) (textures : GLuint)
  | stbi_load (filename : String) (req_comp : Int)
  | glBindTexture (target : GLenum) (texture : GLuint)
  | glTexImage2D (target : GLenum) (level : Int) (internalformat : Option GLenum)
      (width height border : Int) (format : Option GLenum) (type : GLenum) (data : List Nat)
  | glGenerateMipmap (target : GLenum)
  | glTexParameteri (target pname : GLenum) (param : Int)
  | stbi_image_free (data : Option (List Nat))
  | glCreateShader (type : GLenum) (result : GLuint)
  | glShaderSource (shader : GLuint) (count : Nat) (string : String)
  | glCompileShader (shader : GLuint)
  | glGetShaderiv (shader : GLuint) (pname : GLenum)
  | glGetShaderInfoLog (shader : GLuint) (bufSize : Nat)
  | glCreateProgram (result : GLuint)
  | glAttachShader (program shader : GLuint)
  | glLinkProgram (program : GLuint)
  | glGetProgramiv (program : GLuint) (pname : GLenum)
  | glGetProgramInfoLog (program : GLuint) (bufSize : Nat)
  | glDeleteShader (shader : GLuint)
  | glUseProgram (program : GLuint)
  | glGetUniformLocation (program : GLuint) (name : String)
  | glUniform1i (location : GLint) (v0 : Int)
  | glUniform1f (location : GLint) (v0 : GLfloat)
  | glUniform2f (location : GLint) (v0 v1 : GLfloat)
  | glUniform3f (location : GLint) (v0 v1 v2 : GLfloat)
  | glUniform4f (location : GLint) (v0 v1 v2 v3 : GLfloat)
  | glUniform2fv (location : GLint) (count : Nat) (value : List GLfloat)
  | glUniform3fv (location : GLint) (count : Nat) (value : List GLfloat)
  | glUniform4fv (location : GLint) (count : Nat) (value : List GLfloat)
  | glUniformMatrix2fv (location : GLint) (count : Nat) (transpose : GLenum)
      (value : List GLfloat)
  | glUniformMatrix3fv (location : GLint) (count : Nat) (transpose : GLenum)
      (value : List GLfloat)
  | glUniformMatrix4fv (location : GLint) (count : Nat) (transpose : GLenum)
      (value : List GLfloat)
  deriving DecidableEq, Repr

/-- One line written to `std::cout` (one `<< ... << std::endl` statement). -/
inductive Diag where
  | assimpError (errorString : String)
  | textureFailed (path : String)
  | shaderFileNotRead
  | shaderCompilationFailed (type : String) (infoLog : String)
  | shaderLinkingFailed (type : String) (infoLog : String)
  deriving DecidableEq, Repr

/-- The text of a line. -/
def Diag.render : Diag → String
  | .assimpError e => "ERROR::ASSIMP::" ++ e
  | .textureFailed p => "Texture failed to load at path: " ++ p
  | .shaderFileNotRead => "ERROR::SHADER::FILE_NOT_SUCCESFULLY_READ"
  | .shaderCompilationFailed t l => "ERROR::SHADER::" ++ t ++ "::COMPILATION_FAILED\n" ++ l
  | .shaderLinkingFailed t l => "ERROR::SHADER::" ++ t ++ "::LINKING_FAILED\n" ++ l

/-- The calls made and the lines printed so far, oldest first. -/
structure World where
  calls : List Call
  out : List Diag
  deriving DecidableEq, Repr

def World.call (w : World) (c : Call) : World := { w with calls := w.calls ++ [c] }

def World.print (w : World) (d : Diag) : World := { w with out := w.out ++ [d] }

/-- How a `std::ifstream` on some path behaves: whether `open` succeeds, the characters
that `stream << file.rdbuf()` moves into the string stream, whether that transfer
stopped on a read error instead of at the end of the file, and whether `close`
succeeds. -/
structure FileAnswer where
  opens : Bool
  text : String
  readError : Bool
  closes : Bool
  deriving DecidableEq, Repr

/-- The answers of the external libraries. The GL queries are given the calls made
before them. `file p` is the behaviour of a file stream on the path `p`. `paramDefault`
and `gammaDefault` are the default arguments of `textureFromFile`, declared in
`Model.h`. -/
structure Env where
  ReadFile : String → List AiPostProcessSteps → Option AiScene
  GetErrorString : String → String
  stbi_load : String → Option Image
  file : String → FileAnswer
  glGenTextures : List Call → GLuint
  glCreateShader : List Call → GLenum → GLuint
  glCreateProgram : List Call → GLuint
  glGetShaderiv : List Call → GLuint → GLenum → Int
  glGetShaderInfoLog : List Call → GLuint → String
  glGetProgramiv : List Call → GLuint → GLenum → Int
  glGetProgramInfoLog : List Call → GLuint → String
  glGetUniformLocation : List Call → GLuint → String → GLint
  paramDefault : GLint
  gammaDefault : Bool

/-! ## Shader.cpp -/

structure Shader where
  ID : GLuint
  deriving DecidableEq, Repr

/-- The three strings the `try` block leaves behind, and whether it threw. -/
structure ShaderCode where
  vertexCode : String
  fragmentCode : String
  geometryCode : String
  threw : Bool
  deriving DecidableEq, Repr

/-- Lines 16-43 of `Shader.cpp`: the `try` block. The three `std::ifstream`s have the
exception mask `failbit | badbit` (lines 12-14), so a failing `open` or `close`, which
sets `failbit` on the file stream, raises `std::ifstream::failure` and leaves the block.
The reads of lines 22, 23 and 35 are `stringStream << file.rdbuf()`: they change the
state of the string stream only, which has no exception mask and is never tested, so a
read error raises nothing and the characters moved so far are what `str()` returns.
Both of `vertexCode` and `fragmentCode` are assigned only after both streams were
opened, read and closed; the geometry file is touched only when a path is given; the
strings not yet assigned when the block is left stay empty. -/
def readShaderFiles (env : Env) (vertexPath fragmentPath : String)
    (geometryPath : Option String) : ShaderCode :=
  let v := env.file vertexPath
  let f := env.file fragmentPath
  if v.opens = false then ⟨"", "", "", true⟩
  else if f.opens = false then ⟨"", "", "", true⟩
  else if v.closes = false then ⟨"", "", "", true⟩
  else if f.closes = false then ⟨"", "", "", true⟩
  else
    match geometryPath with
    | none => ⟨v.text, f.text, "", false⟩
    | some gp =>
      let g := env.file gp
      if g.opens = false then ⟨v.text, f.text, "", true⟩
      else if g.closes = false then ⟨v.text, f.text, "", true⟩
      else ⟨v.text, f.text, g.text, false⟩

/-- The method `Shader::checkCompileErrors`. -/
def checkCompileErrors (env : Env) (shader : GLuint) (type : String) (w : World) : World :=
  if type ≠ "PROGRAM" then
    let success := env.glGetShaderiv w.calls shader GL_COMPILE_STATUS
    let w := w.call (.glGetShaderiv shader GL_COMPILE_STATUS)
    if success = 0 then
      let infoLog := env.glGetShaderInfoLog w.calls shader
      let w := w.call (.glGetShaderInfoLog shader 1024)
      w.print (.shaderCompilationFailed type infoLog)
    else w
  else
    let success := env.glGetProgramiv w.calls shader GL_LINK_STATUS
    let w := w.call (.glGetProgramiv shader GL_LINK_STATUS)
    if success = 0 then
      let infoLog := env.glGetProgramInfoLog w.calls shader
      let w := w.call (.glGetProgramInfoLog shader 1024)
      w.print (.shaderLinkingFailed type infoLog)
    else w

/-- Lines 50-55 and 59-62: create a shader object of kind `kind`, give it `code` as its
source, compile it and check. Returns the shader's handle. -/
def compileStage (env : Env) (kind : GLenum) (code : String) (type : String) (w : World) :
    GLuint × World :=
  let shader := env.glCreateShader w.calls kind
  let w := w.call (.glCreateShader kind shader)
  let w := w.call (.glShaderSource shader 1 code)
  let w := w.call (.glCompileShader shader)
  (shader, checkCompileErrors env shader type w)

/-- Lines 64-71: the geometry stage. `gShaderCode` is computed at line 67 and not used
afterwards. -/
def compileGeometryStage (env : Env) (geometryPath : Option String) (_geometryCode : String)
    (w : World) : Option GLuint × World :=
  match geometryPath with
  | none => (none, w)
  | some _ =>
    let geometryShader := env.glCreateShader w.calls GL_GEOMETRY_SHADER
    let w := w.call (.glCreateShader GL_GEOMETRY_SHADER geometryShader)
    let w := w.call (.glCompileShader geometryShader)
    (some geometryShader, checkCompileErrors env geometryShader "GEOMETRY" w)

/-- Lines 73-86: create the program, attach, link, check, delete the stages. -/
def linkProgram (env : Env) (vertexShader fragmentShader : GLuint)
    (geometryShader : Option GLuint) (w : World) : Shader × World :=
  let ID := env.glCreateProgram w.calls
  let w := w.call (.glCreateProgram ID)
  let w := w.call (.glAttachShader ID vertexShader)
  let w := w.call (.glAttachShader ID fragmentShader)
  let w := match geometryShader with
    | some g => w.call (.glAttachShader ID g)
    | none => w
  let w := w.call (.glLinkProgram ID)
  let w := checkCompileErrors env ID "PROGRAM" w
  let w := w.call (.glDeleteShader vertexShader)
  let w := w.call (.glDeleteShader fragmentShader)
  let w := match geometryShader with
    | some g => w.call (.glDeleteShader g)
    | none => w
  (⟨ID⟩, w)

/-- The constructor `Shader::Shader(vertexPath, fragmentPath, geometryPath)`; a null
`geometryPath` is
`none`. -/
def Shader.ctor (env : Env) (vertexPath fragmentPath : String) (geometryPath : Option String)
    (w : World) : Shader × World :=
  let code := readShaderFiles env vertexPath fragmentPath geometryPath
  let w := if code.threw then w.print .shaderFileNotRead else w
  let vertex := compileStage env GL_VERTEX_SHADER code.vertexCode "VERTEX" w
  let fragment := compileStage env GL_FRAGMENT_SHADER code.fragmentCode "FRAMEGNT" vertex.2
  let geometry := compileGeometryStage env geometryPath code.geometryCode fragment.2
  linkProgram env vertex.1 fragment.1 geometry.1 geometry.2

/-- The method `Shader::use`. -/
def Shader.use (s : Shader) (w : World) : Shader × World :=
  (s, w.call (.glUseProgram s.ID))

/-- The common first half of every `Shader::set`: `glGetUniformLocation(ID, name.c_str())`. -/
def Shader.location (env : Env) (s : Shader) (name : String) (w : World) : GLint × World :=
  (env.glGetUniformLocation w.calls s.ID name, w.call (.glGetUniformLocation s.ID name))

/-- The value of `(int)value` for a `bool`. -/
def boolToInt (b : Bool) : Int := if b then 1 else 0

/-- The argument of one overload of `Shader::set`. -/
inductive UniformValue where
  | bool (value : Bool)
  | int (value : Int)
  | float (value : GLfloat)
  | vec2 (value : Vec2)
  | float2 (x y : GLfloat)
  | vec3 (value : Vec3)
  | float3 (x y z : GLfloat)
  | vec4 (value : Vec4)
  | float4 (x y z w : GLfloat)
  | mat2 (mat : Mat)
  | mat3 (mat : Mat)
  | mat4 (mat : Mat)
  deriving DecidableEq, Repr

/-- The upload call each overload of `Shader::set` makes (lines 96-165), at location
`loc`. -/
def uploadCall (loc : GLint) : UniformValue → Call
  | .bool value => .glUniform1i loc (boolToInt value)
  | .int value => .glUniform1i loc value
  | .float value => .glUniform1f loc value
  | .vec2 value => .glUniform2fv loc 1 value.data
  | .float2 x y => .glUniform2f loc x y
  | .vec3 value => .glUniform3fv loc 1 value.data
  | .float3 x y z => .glUniform3f loc x y z
  | .vec4 value => .glUniform4fv loc 1 value.data
  | .float4 x y z w => .glUniform4f loc x y z w
  | .mat2 mat => .glUniformMatrix2fv loc 1 GL_FALSE mat.elems
  | .mat3 mat => .glUniformMatrix3fv loc 1 GL_FALSE mat.elems
  | .mat4 mat => .glUniformMatrix4fv loc 1 GL_FALSE mat.elems

/-- The method `Shader::set(name, value)`, any overload: look the location up, then
upload. -/
def Shader.set (env : Env) (s : Shader) (name : String) (value : UniformValue) (w : World) :
    Shader × World :=
  let loc := s.location env name w
  (s, loc.2.call (uploadCall loc.1 value))

/-! ## Model.cpp -/

structure Model where
  meshes_ : List Mesh
  textures_loaded_ : List Texture
  directory_ : String
  gammaCorrection : Bool
  deriving DecidableEq, Repr

/-- The highest position at which `c` occurs, if any. -/
def lastIndex? (c : Char) : List Char → Option Nat
  | [] => none
  | x :: xs =>
    match lastIndex? c xs with
    | some i => some (i + 1)
    | none => if x = c then some 0 else none

/-- The library function `std::string::find_last_of(char)`: the highest position of `c`,
`npos` when `c` does
not occur. A `std::string` is the list of its characters. -/
def find_last_of (s : String) (c : Char) : Nat := (lastIndex? c s.data).getD npos

/-- The library function `std::string::substr(pos, n)`: at most `n` characters from
position `pos` on (the
loader calls it with `pos = 0` only, which never throws). -/
def substr (s : String) (pos n : Nat) : String := ⟨(s.data.drop pos).take n⟩

/-- Lines 180-186 of `Model.cpp`: `format` is declared without an initialiser and is
assigned in three branches only. -/
def chooseFormat (nrComponents : Int) : Option GLenum :=
  if nrComponents = 1 then some GL_RED
  else if nrComponents = 3 then some GL_RGB
  else if nrComponents = 4 then some GL_RGBA
  else none

/-- The method `Model::textureFromFile`. -/
def textureFromFile (env : Env) (path : String) (directory : String) (param : GLint)
    (_gamma : Bool) (w : World) : GLuint × World :=
  let filename := directory.push '/' ++ path
  let textureID := env.glGenTextures w.calls
  let w := w.call (.glGenTextures 1 textureID)
  let data := env.stbi_load filename
  let w := w.call (.stbi_load filename 0)
  let w := match data with
    | some img =>
      let format := chooseFormat img.nrComponents
      let w := w.call (.glBindTexture GL_TEXTURE_2D textureID)
      let w := w.call (.glTexImage2D GL_TEXTURE_2D 0 format img.width img.height 0 format
        GL_UNSIGNED_BYTE img.data)
      let w := w.call (.glGenerateMipmap GL_TEXTURE_2D)
      let w := w.call (.glTexParameteri GL_TEXTURE_2D GL_TEXTURE_WRAP_S param)
      let w := w.call (.glTexParameteri GL_TEXTURE_2D GL_TEXTURE_WRAP_T param)
      let w := w.call (.glTexParameteri GL_TEXTURE_2D GL_TEXTURE_MIN_FILTER
        GL_LINEAR_MIPMAP_LINEAR)
      w.call (.glTexParameteri GL_TEXTURE_2D GL_TEXTURE_MAG_FILTER GL_LINEAR)
    | none => w.print (.textureFailed path)
  let w := w.call (.stbi_image_free (data.map (fun img => img.data)))
  (textureID, w)

/-- Lines 143-151: the first record of `textures_loaded_` whose path compares equal
(`strcmp(...) == 0`) to `str`. -/
def findLoaded (loaded : List Texture) (str : String) : Option Texture :=
  loaded.find? (fun t => t.path == str)

/-- Lines 139-161: one iteration of the loop of `loadMaterialTextures`, for the texture
path `str`. Returns the record pushed onto `textures`. -/
def loadTexture (env : Env) (typeName : String) (str : String) (m : Model) (w : World) :
    Texture × Model × World :=
  match findLoaded m.textures_loaded_ str with
  | some t => (t, m, w)
  | none =>
    let loaded := textureFromFile env str m.directory_ env.paramDefault env.gammaDefault w
    let texture : Texture := ⟨loaded.1, typeName, str⟩
    (texture, { m with textures_loaded_ := m.textures_loaded_ ++ [texture] }, loaded.2)

/-- The loop of lines 137-162 over the paths still to visit. -/
def loadTextures (env : Env) (typeName : String) :
    List String → Model → World → List Texture × Model × World
  | [], m, w => ([], m, w)
  | str :: rest, m, w =>
    match loadTexture env typeName str m w with
    | (t, m1, w1) =>
      match loadTextures env typeName rest m1 w1 with
      | (ts, m2, w2) => (t :: ts, m2, w2)

/-- The method `Model::loadMaterialTextures`. -/
def loadMaterialTextures (env : Env) (mat : AiMaterial) (type : AiTextureType)
    (typeName : String) (m : Model) (w : World) : List Texture × Model × World :=
  loadTextures env typeName (mat.textures type) m w

def toVec3 (v : AiVector3D) : Vec3 := ⟨v.x, v.y, v.z⟩

/-- Lines 61-99: the vertex built in iteration `i`; `none` when an array is read out of
range (or is null). -/
def processVertex (mesh : AiMesh) (i : Nat) : Option Vertex :=
  match mesh.mVertices[i]?, mesh.mNormals[i]? with
  | some p, some n =>
    let texCoords : Option Vec2 :=
      match mesh.mTextureCoords 0 with
      | some uv => (uv[i]?).map (fun t => ⟨t.x, t.y⟩)
      | none => some ⟨0, 0⟩
    match texCoords, mesh.mTangents[i]?, mesh.mBitangents[i]? with
    | some tc, some t, some b => some ⟨toVec3 p, toVec3 n, tc, toVec3 t, toVec3 b⟩
    | _, _, _ => none
  | _, _ => none

/-- The loop of lines 59-100 over the indices still to visit. -/
def processVertices (mesh : AiMesh) : List Nat → Option (List Vertex)
  | [] => some []
  | i :: rest =>
    match processVertex mesh i, processVertices mesh rest with
    | some v, some vs => some (v :: vs)
    | _, _ => none

/-- Lines 102-107: every index of every face, in order. -/
def processFaces (faces : List AiFace) : List GLuint :=
  (faces.map (fun face => face.mIndices)).flatten

/-- The method `Model::processMesh`. -/
def processMesh (env : Env) (mesh : AiMesh) (scene : AiScene) (m : Model) (w : World) :
    Option (Mesh × Model × World) :=
  match processVertices mesh (List.range mesh.mNumVertices) with
  | none => none
  | some vertices =>
    let indices := processFaces mesh.mFaces
    match scene.mMaterials[mesh.mMaterialIndex]? with
    | none => none
    | some material =>
      match loadMaterialTextures env material aiTextureType_DIFFUSE "texture_diffuse" m w with
      | (diffuseMaps, m1, w1) =>
      match loadMaterialTextures env material aiTextureType_SPECULAR "texture_specular" m1 w1 with
      | (specularMaps, m2, w2) =>
      match loadMaterialTextures env material aiTextureType_HEIGHT "texture_normal" m2 w2 with
      | (normalMaps, m3, w3) =>
      match loadMaterialTextures env material aiTextureType_AMBIENT "texture_height" m3 w3 with
      | (heightMaps, m4, w4) =>
        some (⟨vertices, indices, diffuseMaps ++ specularMaps ++ normalMaps ++ heightMaps⟩,
          m4, w4)

/-- The loop of lines 41-45 over the mesh references still to visit. -/
def processMeshRefs (env : Env) (scene : AiScene) :
    List Nat → Model → World → Option (Model × World)
  | [], m, w => some (m, w)
  | idx :: rest, m, w =>
    match scene.mMeshes[idx]? with
    | none => none
    | some mesh =>
      match processMesh env mesh scene m w with
      | none => none
      | some (me, m1, w1) =>
        processMeshRefs env scene rest { m1 with meshes_ := m1.meshes_ ++ [me] } w1

mutual
/-- The method `Model::processNode`. -/
def processNode (env : Env) (scene : AiScene) : AiNode → Model → World → Option (Model × World)
  | .mk meshes children, m, w =>
    match processMeshRefs env scene meshes m w with
    | none => none
    | some (m1, w1) => processChildren env scene children m1 w1
/-- The loop of lines 48-49 over the children still to visit. -/
def processChildren (env : Env) (scene : AiScene) :
    List AiNode → Model → World → Option (Model × World)
  | [], m, w => some (m, w)
  | child :: rest, m, w =>
    match processNode env scene child m w with
    | none => none
    | some (m1, w1) => processChildren env scene rest m1 w1
end

/-- The condition of line 26, on what `ReadFile` returned. -/
def importFailed : Option AiScene → Bool
  | none => true
  | some scene => (scene.mFlags &&& AI_SCENE_FLAGS_INCOMPLETE != 0) || scene.mRootNode.isNone

/-- The flags `loadModel` passes to the importer (line 24). -/
def importFlags : List AiPostProcessSteps :=
  [.aiProcess_Triangulate, .aiProcess_FlipUVs, .aiProcess_CalcTangentSpace]

/-- The method `Model::loadModel`. -/
def loadModel (env : Env) (path : String) (m : Model) (w : World) : Option (Model × World) :=
  let scene := env.ReadFile path importFlags
  match scene with
  | none => some (m, w.print (.assimpError (env.GetErrorString path)))
  | some sc =>
    if sc.mFlags &&& AI_SCENE_FLAGS_INCOMPLETE ≠ 0 then
      some (m, w.print (.assimpError (env.GetErrorString path)))
    else
      match sc.mRootNode with
      | none => some (m, w.print (.assimpError (env.GetErrorString path)))
      | some root =>
        processNode env sc root
          { m with directory_ := substr path 0 (find_last_of path '/') } w

/-- The constructor `Model::Model(path, gamma)`: the members start empty, then
`loadModel` runs. -/
def Model.ctor (env : Env) (path : String) (gamma : Bool) (w : World) :
    Option (Model × World) :=
  loadModel env path ⟨[], [], "", gamma⟩ w

/-! ## Observations on a run, and the vocabulary of the claims -/

/-- The program handles returned by the `glCreateProgram` calls of a trace. -/
def createdPrograms (calls : List Call) : List GLuint :=
  calls.filterMap fun
    | .glCreateProgram result => some result
    | _ => none

/-- The `(shader, source text)` pairs of the `glShaderSource` calls of a trace. -/
def shaderSources (calls : List Call) : List (GLuint × String) :=
  calls.filterMap fun
    | .glShaderSource shader _ string => some (shader, string)
    | _ => none

/-- How often the generic read-failure line was printed. -/
def readFailureLines (out : List Diag) : Nat := out.count .shaderFileNotRead

/-- The uniform-upload entry points of the backend. -/
inductive UploadKind where
  | uniform1i | uniform1f
  | uniform2f | uniform3f | uniform4f
  | uniform2fv | uniform3fv | uniform4fv
  | uniformMatrix2fv | uniformMatrix3fv | uniformMatrix4fv
  deriving DecidableEq, Repr

/-- A scalar carried by an upload call. -/
inductive Scalar where
  | int (i : Int)
  | float (f : GLfloat)
  deriving DecidableEq, Repr

/-- What an upload call is, read off the call itself: entry point, location, element
count (for the pointer forms), transpose flag (for the matrix forms) and the scalars it
carries. `none` for every call that is not a uniform upload. -/
structure Upload where
  kind : UploadKind
  location : GLint
  count : Option Nat
  transpose : Option GLenum
  payload : List Scalar
  deriving DecidableEq, Repr

def Call.upload? : Call → Option Upload
  | .glUniform1i l v => some ⟨.uniform1i, l, none, none, [.int v]⟩
  | .glUniform1f l v => some ⟨.uniform1f, l, none, none, [.float v]⟩
  | .glUniform2f l a b => some ⟨.uniform2f, l, none, none, [.float a, .float b]⟩
  | .glUniform3f l a b c => some ⟨.uniform3f, l, none, none, [.float a, .float b, .float c]⟩
  | .glUniform4f l a b c d =>
    some ⟨.uniform4f, l, none, none, [.float a, .float b, .float c, .float d]⟩
  | .glUniform2fv l n v => some ⟨.uniform2fv, l, some n, none, v.map .float⟩
  | .glUniform3fv l n v => some ⟨.uniform3fv, l, some n, none, v.map .float⟩
  | .glUniform4fv l n v => some ⟨.uniform4fv, l, some n, none, v.map .float⟩
  | .glUniformMatrix2fv l n t v => some ⟨.uniformMatrix2fv, l, some n, some t, v.map .float⟩
  | .glUniformMatrix3fv l n t v => some ⟨.uniformMatrix3fv, l, some n, some t, v.map .float⟩
  | .glUniformMatrix4fv l n t v => some ⟨.uniformMatrix4fv, l, some n, some t, v.map .float⟩
  | _ => none

/-- The uniform uploads of a trace, in order. -/
def uploads (calls : List Call) : List Upload := calls.filterMap Call.upload?

/-- The upload the claim expects for a value: the entry point matching its type, the
value's own scalars (a `bool` as `0` or `1`), count `1` for the pointer forms and
transpose `GL_FALSE` for matrices. -/
def expectedUpload (loc : GLint) : UniformValue → Upload
  | .bool b => ⟨.uniform1i, loc, none, none, [.int (if b then 1 else 0)]⟩
  | .int i => ⟨.uniform1i, loc, none, none, [.int i]⟩
  | .float f => ⟨.uniform1f, loc, none, none, [.float f]⟩
  | .vec2 v => ⟨.uniform2fv, loc, some 1, none, [.float v.x, .float v.y]⟩
  | .float2 x y => ⟨.uniform2f, loc, none, none, [.float x, .float y]⟩
  | .vec3 v => ⟨.uniform3fv, loc, some 1, none, [.float v.x, .float v.y, .float v.z]⟩
  | .float3 x y z => ⟨.uniform3f, loc, none, none, [.float x, .float y, .float z]⟩
  | .vec4 v =>
    ⟨.uniform4fv, loc, some 1, none, [.float v.x, .float v.y, .float v.z, .float v.w]⟩
  | .float4 x y z w => ⟨.uniform4f, loc, none, none, [.float x, .float y, .float z, .float w]⟩
  | .mat2 m => ⟨.uniformMatrix2fv, loc, some 1, some 0, m.elems.map .float⟩
  | .mat3 m => ⟨.uniformMatrix3fv, loc, some 1, some 0, m.elems.map .float⟩
  | .mat4 m => ⟨.uniformMatrix4fv, loc, some 1, some 0, m.elems.map .float⟩

/-- A file that cannot be read: it cannot be opened, or reading it ends in an error. -/
def FileAnswer.unreadable (a : FileAnswer) : Bool := !a.opens || a.readError

/-- Some source file given to a shader build cannot be read. -/
def someFileUnreadable (env : Env) (vertexPath fragmentPath : String)
    (geometryPath : Option String) : Prop :=
  (env.file vertexPath).unreadable = true ∨ (env.file fragmentPath).unreadable = true ∨
    ∃ g, geometryPath = some g ∧ (env.file g).unreadable = true

/-- Some source file given to a shader build cannot be opened. -/
def someFileUnopenable (env : Env) (vertexPath fragmentPath : String)
    (geometryPath : Option String) : Prop :=
  (env.file vertexPath).opens = false ∨ (env.file fragmentPath).opens = false ∨
    ∃ g, geometryPath = some g ∧ (env.file g).opens = false

/-- Every source file given to a shader build can be opened and closed. -/
def allFilesOpenAndClose (env : Env) (vertexPath fragmentPath : String)
    (geometryPath : Option String) : Prop :=
  (env.file vertexPath).opens = true ∧ (env.file vertexPath).closes = true ∧
  (env.file fragmentPath).opens = true ∧ (env.file fragmentPath).closes = true ∧
  ∀ g, geometryPath = some g → (env.file g).opens = true ∧ (env.file g).closes = true

/-- The texture names returned by the `glGenTextures` calls of a trace: one entry per
backend texture allocation. -/
def generatedTextures (calls : List Call) : List GLuint :=
  calls.filterMap fun
    | .glGenTextures _ textures => some textures
    | _ => none

/-- The file names handed to `stbi_load` in a trace. -/
def decodedFiles (calls : List Call) : List String :=
  calls.filterMap fun
    | .stbi_load filename _ => some filename
    | _ => none

/-- The `(internalformat, format)` pairs of the `glTexImage2D` calls of a trace. -/
def uploadFormats (calls : List Call) : List (Option GLenum × Option GLenum) :=
  calls.filterMap fun
    | .glTexImage2D _ _ internalformat _ _ _ format _ _ => some (internalformat, format)
    | _ => none

/-- The import-failure lines of an output. -/
def assimpErrors (out : List Diag) : List Diag :=
  out.filter fun
    | .assimpError _ => true
    | _ => false

mutual
/-- The mesh references of a node tree in depth-first pre-order: a node's own
references in their listed order, then those of each child in listed order. -/
def meshRefs : AiNode → List Nat
  | .mk meshes children => meshes ++ meshRefsOfList children
/-- The pre-order mesh references of a list of trees, one tree after the other. -/
def meshRefsOfList : List AiNode → List Nat
  | [] => []
  | child :: rest => meshRefs child ++ meshRefsOfList rest
end

mutual
/-- The sum of `mNumMeshes` over all nodes of a tree. -/
def sumNumMeshes : AiNode → Nat
  | .mk meshes children => meshes.length + sumNumMeshesOfList children
def sumNumMeshesOfList : List AiNode → Nat
  | [] => 0
  | child :: rest => sumNumMeshes child + sumNumMeshesOfList rest
end

/-- The texture references of a material in the order the loader visits them: the
diffuse slot, the specular slot, the height slot, the ambient slot. -/
def materialPaths (mat : AiMaterial) : List String :=
  mat.textures aiTextureType_DIFFUSE ++ mat.textures aiTextureType_SPECULAR ++
    mat.textures aiTextureType_HEIGHT ++ mat.textures aiTextureType_AMBIENT

/-- The texture references of the mesh with index `idx` (none when the index or its
material index is out of range). -/
def meshPaths (scene : AiScene) (idx : Nat) : List String :=
  match scene.mMeshes[idx]? with
  | none => []
  | some mesh =>
    match scene.mMaterials[mesh.mMaterialIndex]? with
    | none => []
    | some mat => materialPaths mat

/-- Every texture reference a load of the tree `root` visits, in visiting order. -/
def referencedPaths (scene : AiScene) (root : AiNode) : List String :=
  ((meshRefs root).map (meshPaths scene)).flatten

/-- The vertices and indices the mesh reference `idx` converts to. -/
def meshGeometry (scene : AiScene) (idx : Nat) : Option (List Vertex × List GLuint) :=
  match scene.mMeshes[idx]? with
  | none => none
  | some mesh =>
    (processVertices mesh (List.range mesh.mNumVertices)).map fun vs =>
      (vs, processFaces mesh.mFaces)

/-- Every array the loader indexes by vertex number has at least `mNumVertices`
elements, and the material index is in range. -/
def AiMesh.wellFormed (scene : AiScene) (mesh : AiMesh) : Bool :=
  decide (mesh.mNumVertices ≤ mesh.mNormals.length) &&
  decide (mesh.mNumVertices ≤ mesh.mTangents.length) &&
  decide (mesh.mNumVertices ≤ mesh.mBitangents.length) &&
  (match mesh.mTextureCoords 0 with
    | some uv => decide (mesh.mNumVertices ≤ uv.length)
    | none => true) &&
  decide (mesh.mMaterialIndex < scene.mMaterials.length)

/-- Every mesh reference of the list is in range and names a well-formed mesh. -/
def refsWellFormed (scene : AiScene) (refs : List Nat) : Bool :=
  refs.all fun idx =>
    match scene.mMeshes[idx]? with
    | some mesh => mesh.wellFormed scene
    | none => false

/-- The scene the importer is documented to deliver: every mesh reference of the tree
resolves to a well-formed mesh. -/
def sceneWellFormed (scene : AiScene) (root : AiNode) : Bool :=
  refsWellFormed scene (meshRefs root)

/-- The file name a texture path is resolved to under a directory. -/
def resolve (directory path : String) : String := directory.push '/' ++ path

/-- What a stretch of a load did to the cache and the world, between `(m, w)` and
`(m', w')`, while visiting the texture references `paths`: it appended the records
`added` to the cache, allocated exactly their handles, decoded exactly their files, and
printed no import-failure line; the appended records have pairwise different paths, none
of them cached before, all of them among `paths`; and every path of `paths` is cached
afterwards. -/
structure Loaded (m : Model) (w : World) (m' : Model) (w' : World) (paths : List String)
    (added : List Texture) : Prop where
  cache : m'.textures_loaded_ = m.textures_loaded_ ++ added
  dir : m'.directory_ = m.directory_
  gamma : m'.gammaCorrection = m.gammaCorrection
  gen : generatedTextures w'.calls = generatedTextures w.calls ++ added.map (fun t => t.id)
  decoded : decodedFiles w'.calls
    = decodedFiles w.calls ++ added.map (fun t => resolve m.directory_ t.path)
  errs : assimpErrors w'.out = assimpErrors w.out
  fresh : ∀ t ∈ added, t.path ∈ paths ∧ t.path ∉ m.textures_loaded_.map (fun t => t.path)
  nodup : (added.map (fun t => t.path)).Nodup
  covered : ∀ p ∈ paths, p ∈ (m.textures_loaded_ ++ added).map (fun t => t.path)

/-! ### A concrete environment -/

/-- A mesh of one vertex with a first UV channel and no second one. -/
def crateMesh : AiMesh where
  mVertices := [⟨1, 2, 3⟩]
  mNormals := [⟨4, 5, 6⟩]
  mTangents := [⟨7, 8, 9⟩]
  mBitangents := [⟨10, 11, 12⟩]
  mTextureCoords := fun k => if k = 0 then some [⟨5, 7, 0⟩] else none
  mFaces := [⟨[0, 0, 0]⟩]
  mMaterialIndex := 0

/-- A mesh of two vertices without any UV channel. -/
def plainMesh : AiMesh where
  mVertices := [⟨1, 2, 3⟩, ⟨2, 3, 4⟩]
  mNormals := [⟨4, 5, 6⟩, ⟨5, 6, 7⟩]
  mTangents := [⟨7, 8, 9⟩, ⟨8, 9, 10⟩]
  mBitangents := [⟨10, 11, 12⟩, ⟨11, 12, 13⟩]
  mTextureCoords := fun _ => none
  mFaces := [⟨[0, 1, 0]⟩]
  mMaterialIndex := 1

def crateMaterial : AiMaterial where
  textures := fun
    | .aiTextureType_DIFFUSE => ["wood.png"]
    | .aiTextureType_SPECULAR => ["wood.png", "gray.png"]
    | _ => []

def plainMaterial : AiMaterial where
  textures := fun
    | .aiTextureType_DIFFUSE => ["gray.png"]
    | .aiTextureType_HEIGHT => ["bump.png"]
    | .aiTextureType_NORMALS => ["unused.png"]
    | _ => []

/-- A root with the crate, and two children: one with the plain mesh, one with the
crate again followed by the plain mesh. -/
def demoRoot : AiNode := .mk [0] [.mk [1] [], .mk [0, 1] []]

def demoScene : AiScene where
  mFlags := 0
  mRootNode := some demoRoot
  mMeshes := [crateMesh, plainMesh]
  mMaterials := [crateMaterial, plainMaterial]

/-- A small file system and backend: a model file (reachable under two names, one with
a directory part and one without), an incomplete scene, a scene without root, three
shader files, the directory `shaders` (which opens as a file but cannot be read; every
other path cannot be opened), decodable images of one, two and three channels, handles
numbered by the length of the trace, every compile and link succeeding. -/
def demoEnv : Env where
  ReadFile := fun p _ =>
    if p = "models/crate/crate.obj" ∨ p = "crate.obj" then some demoScene
    else if p = "incomplete.obj" then some { demoScene with mFlags := 1 }
    else if p = "rootless.obj" then some { demoScene with mRootNode := none }
    else none
  GetErrorString := fun _ => "Unable to open file"
  stbi_load := fun f =>
    if f = "models/crate/gray.png" then some ⟨1, 1, 1, [7]⟩
    else if f = "models/crate/duo.png" then some ⟨1, 1, 2, [7, 8]⟩
    else if f = "models/crate/wood.png" then some ⟨1, 1, 3, [7, 8, 9]⟩
    else none
  file := fun p =>
    if p = "shader.vs" then ⟨true, "vertex source", false, true⟩
    else if p = "shader.fs" then ⟨true, "fragment source", false, true⟩
    else if p = "shader.gs" then ⟨true, "geometry source", false, true⟩
    else if p = "shaders" then ⟨true, "", true, true⟩
    else ⟨false, "", false, false⟩
  glGenTextures := fun calls => calls.length + 1
  glCreateShader := fun calls _ => calls.length + 1
  glCreateProgram := fun calls => calls.length + 1
  glGetShaderiv := fun _ _ _ => 1
  glGetShaderInfoLog := fun _ _ => ""
  glGetProgramiv := fun _ _ _ => 1
  glGetProgramInfoLog := fun _ _ => ""
  glGetUniformLocation := fun _ _ name => if name = "model" then 3 else -1
  paramDefault := 0x2901
  gammaDefault := false

/-- The world before anything ran. -/
def World.empty : World := ⟨[], []⟩

/-- A model whose cache holds `wood.png`, loaded under the diffuse tag. -/
def woodCached : Model := ⟨[], [⟨1, "texture_diffuse", "wood.png"⟩], "models/crate", false⟩

/-! ## Statements and proofs -/

@[simp] theorem World.call_calls (w : World) (c : Call) : (w.call c).calls = w.calls ++ [c] := rfl

@[simp] theorem World.call_out (w : World) (c : Call) : (w.call c).out = w.out := rfl

@[simp] theorem World.print_calls (w : World) (d : Diag) : (w.print d).calls = w.calls := rfl

@[simp] theorem World.print_out (w : World) (d : Diag) : (w.print d).out = w.out ++ [d] := rfl

/-! ### Shader.cpp -/

theorem createdPrograms_append (a b : List Call) :
    createdPrograms (a ++ b) = createdPrograms a ++ createdPrograms b := by
  simp [createdPrograms, List.filterMap_append]

theorem readFailureLines_append (a b : List Diag) :
    readFailureLines (a ++ b) = readFailureLines a + readFailureLines b := by
  simp [readFailureLines, List.count_append]

theorem checkCompileErrors_readFailureLines (env : Env) (shader : GLuint) (type : String)
    (w : World) :
    readFailureLines (checkCompileErrors env shader type w).out = readFailureLines w.out := by
  unfold checkCompileErrors
  dsimp only
  split_ifs <;> simp [readFailureLines_append] <;> simp [readFailureLines]

theorem checkCompileErrors_createdPrograms (env : Env) (shader : GLuint) (type : String)
    (w : World) :
    createdPrograms (checkCompileErrors env shader type w).calls = createdPrograms w.calls := by
  unfold checkCompileErrors
  dsimp only
  split_ifs <;> simp [createdPrograms_append] <;> simp [createdPrograms]

theorem compileStage_readFailureLines (env : Env) (kind : GLenum) (code type : String)
    (w : World) :
    readFailureLines (compileStage env kind code type w).2.out = readFailureLines w.out := by
  simp [compileStage, checkCompileErrors_readFailureLines]

theorem compileStage_createdPrograms (env : Env) (kind : GLenum) (code type : String)
    (w : World) :
    createdPrograms (compileStage env kind code type w).2.calls = createdPrograms w.calls := by
  simp [compileStage, checkCompileErrors_createdPrograms, createdPrograms_append]
  simp [createdPrograms]

theorem compileGeometryStage_readFailureLines (env : Env) (geometryPath : Option String)
    (code : String) (w : World) :
    readFailureLines (compileGeometryStage env geometryPath code w).2.out
      = readFailureLines w.out := by
  cases geometryPath <;> simp [compileGeometryStage, checkCompileErrors_readFailureLines]

theorem compileGeometryStage_createdPrograms (env : Env) (geometryPath : Option String)
    (code : String) (w : World) :
    createdPrograms (compileGeometryStage env geometryPath code w).2.calls
      = createdPrograms w.calls := by
  cases geometryPath <;>
    simp [compileGeometryStage, checkCompileErrors_createdPrograms, createdPrograms_append]
  simp [createdPrograms]

theorem linkProgram_readFailureLines (env : Env) (v f : GLuint) (g : Option GLuint) (w : World) :
    readFailureLines (linkProgram env v f g w).2.out = readFailureLines w.out := by
  cases g <;> simp [linkProgram, checkCompileErrors_readFailureLines]

theorem linkProgram_createdPrograms (env : Env) (v f : GLuint) (g : Option GLuint) (w : World) :
    createdPrograms (linkProgram env v f g w).2.calls
      = createdPrograms w.calls ++ [(linkProgram env v f g w).1.ID] := by
  cases g <;>
    simp [linkProgram, checkCompileErrors_createdPrograms, createdPrograms_append] <;>
    simp [createdPrograms]

theorem readShaderFiles_threw (env : Env) (vertexPath fragmentPath : String)
    (geometryPath : Option String)
    (h : someFileUnopenable env vertexPath fragmentPath geometryPath) :
    (readShaderFiles env vertexPath fragmentPath geometryPath).threw = true := by
  unfold readShaderFiles
  rcases h with h | h | ⟨g, hg, h⟩
  · simp [h]
  · simp only [h]; split_ifs <;> rfl
  · subst hg
    simp only [h]; split_ifs <;> rfl

theorem readShaderFiles_not_threw (env : Env) (vertexPath fragmentPath : String)
    (geometryPath : Option String)
    (h : allFilesOpenAndClose env vertexPath fragmentPath geometryPath) :
    (readShaderFiles env vertexPath fragmentPath geometryPath).threw = false := by
  obtain ⟨hv, hvc, hf, hfc, hg⟩ := h
  unfold readShaderFiles
  cases geometryPath with
  | none => simp [hv, hvc, hf, hfc]
  | some g =>
    obtain ⟨hgo, hgc⟩ := hg g rfl
    simp [hv, hvc, hf, hfc, hgo, hgc]

/-- The constructor as a whole: it makes one `glCreateProgram` call, whose result is
the `ID`, and prints the read-failure line once if the `try` block threw and not at all
otherwise. -/
theorem Shader_ctor_summary (env : Env) (vertexPath fragmentPath : String)
    (geometryPath : Option String) (w : World) :
    createdPrograms (Shader.ctor env vertexPath fragmentPath geometryPath w).2.calls
      = createdPrograms w.calls
        ++ [(Shader.ctor env vertexPath fragmentPath geometryPath w).1.ID] ∧
    readFailureLines (Shader.ctor env vertexPath fragmentPath geometryPath w).2.out
      = readFailureLines w.out
        + (if (readShaderFiles env vertexPath fragmentPath geometryPath).threw then 1 else 0) := by
  constructor
  · simp only [Shader.ctor, linkProgram_createdPrograms, compileGeometryStage_createdPrograms,
      compileStage_createdPrograms]
    split_ifs <;> rfl
  · simp only [Shader.ctor, linkProgram_readFailureLines, compileGeometryStage_readFailureLines,
      compileStage_readFailureLines]
    split_ifs <;> simp [readFailureLines_append, readFailureLines]

/-- Where the constructor does what C6 says: when one of the given files cannot be
opened, the constructor returns a `Shader` whose `ID` is the handle returned by the one
`glCreateProgram` call it makes, and the read-failure line is printed exactly once. -/
theorem Shader_ctor_unopenable_file (env : Env) (vertexPath fragmentPath : String)
    (geometryPath : Option String) (w : World)
    (h : someFileUnopenable env vertexPath fragmentPath geometryPath) :
    ∃ s w', Shader.ctor env vertexPath fragmentPath geometryPath w = (s, w') ∧
      createdPrograms w'.calls = createdPrograms w.calls ++ [s.ID] ∧
      readFailureLines w'.out = readFailureLines w.out + 1 := by
  have ht := readShaderFiles_threw env vertexPath fragmentPath geometryPath h
  obtain ⟨h1, h2⟩ := Shader_ctor_summary env vertexPath fragmentPath geometryPath w
  refine ⟨(Shader.ctor env vertexPath fragmentPath geometryPath w).1,
    (Shader.ctor env vertexPath fragmentPath geometryPath w).2, rfl, h1, ?_⟩
  rw [h2, ht]; rfl

/-- A build whose fragment and geometry files are both missing prints the line once. -/
theorem Shader_ctor_unopenable_file_demo :
    someFileUnopenable demoEnv "shader.vs" "missing.fs" (some "missing.gs") ∧
    ∃ s w', Shader.ctor demoEnv "shader.vs" "missing.fs" (some "missing.gs") World.empty
        = (s, w') ∧
      createdPrograms w'.calls = createdPrograms World.empty.calls ++ [s.ID] ∧
      readFailureLines w'.out = readFailureLines World.empty.out + 1 :=
  ⟨Or.inr (Or.inl (by decide)),
   Shader_ctor_unopenable_file demoEnv "shader.vs" "missing.fs" (some "missing.gs") World.empty
     (Or.inr (Or.inl (by decide)))⟩

/-- Whenever every given file opens and closes, the read-failure line is not printed,
whether or not reading the files ended in an error. -/
theorem Shader_ctor_read_error_silent (env : Env) (vertexPath fragmentPath : String)
    (geometryPath : Option String) (w : World)
    (h : allFilesOpenAndClose env vertexPath fragmentPath geometryPath) :
    readFailureLines (Shader.ctor env vertexPath fragmentPath geometryPath w).2.out
      = readFailureLines w.out := by
  rw [(Shader_ctor_summary env vertexPath fragmentPath geometryPath w).2,
    readShaderFiles_not_threw env vertexPath fragmentPath geometryPath h]
  rfl

/-- C6 (the code departs from it): a build whose vertex path is the directory
`shaders`, which opens but cannot be read. The file streams are armed to raise on
failure and the `catch` prints the read-failure line, but the read goes through
`stream << file.rdbuf()`, so the error never reaches the file stream: the constructor
prints nothing at all, hands the empty string to the vertex shader as its source, and
returns the program handle 9 as if the file had been read. -/
theorem Shader_ctor_read_error_not_logged :
    someFileUnreadable demoEnv "shaders" "shader.fs" none ∧
    (readShaderFiles demoEnv "shaders" "shader.fs" none).threw = false ∧
    (Shader.ctor demoEnv "shaders" "shader.fs" none World.empty).1 = ⟨9⟩ ∧
    (Shader.ctor demoEnv "shaders" "shader.fs" none World.empty).2.out = [] ∧
    readFailureLines (Shader.ctor demoEnv "shaders" "shader.fs" none World.empty).2.out = 0 ∧
    shaderSources (Shader.ctor demoEnv "shaders" "shader.fs" none World.empty).2.calls
      = [(1, ""), (5, "fragment source")] ∧
    createdPrograms (Shader.ctor demoEnv "shaders" "shader.fs" none World.empty).2.calls
      = [9] :=
  ⟨Or.inl (by decide), by decide, by decide, by decide, by decide, by decide, by decide⟩

theorem shaderSources_append (a b : List Call) :
    shaderSources (a ++ b) = shaderSources a ++ shaderSources b := by
  simp [shaderSources, List.filterMap_append]

theorem checkCompileErrors_shaderSources (env : Env) (shader : GLuint) (type : String)
    (w : World) :
    shaderSources (checkCompileErrors env shader type w).calls = shaderSources w.calls := by
  unfold checkCompileErrors
  dsimp only
  split_ifs <;> simp [shaderSources_append] <;> simp [shaderSources]

/-- Whatever the geometry path and the text read from it, the geometry stage adds no
`glShaderSource` call: the shader object it compiles was never given a source. -/
theorem compileGeometryStage_shaderSources (env : Env) (geometryPath : Option String)
    (code : String) (w : World) :
    shaderSources (compileGeometryStage env geometryPath code w).2.calls
      = shaderSources w.calls := by
  cases geometryPath <;>
    simp [compileGeometryStage, checkCompileErrors_shaderSources, shaderSources_append]
  simp [shaderSources]

/-- By contrast the vertex and fragment stages each hand their text to the shader
object they create. -/
theorem compileStage_shaderSources (env : Env) (kind : GLenum) (code type : String)
    (w : World) :
    shaderSources (compileStage env kind code type w).2.calls
      = shaderSources w.calls ++ [((compileStage env kind code type w).1, code)] := by
  simp [compileStage, checkCompileErrors_shaderSources, shaderSources_append]
  simp [shaderSources]

/-- C8 (the code departs from it): a build with the readable geometry file `shader.gs`.
The text of that file is read (`geometryCode`), a geometry shader object (handle 9) is
created and compiled, but the only `glShaderSource` calls are those of the vertex
(handle 1) and fragment (handle 5) stages: the geometry object is compiled without any
source. -/
theorem Shader_ctor_geometry_source_missing :
    (readShaderFiles demoEnv "shader.vs" "shader.fs" (some "shader.gs")).geometryCode
      = "geometry source" ∧
    (Shader.ctor demoEnv "shader.vs" "shader.fs" (some "shader.gs") World.empty).2.calls =
      [.glCreateShader GL_VERTEX_SHADER 1, .glShaderSource 1 1 "vertex source",
       .glCompileShader 1, .glGetShaderiv 1 GL_COMPILE_STATUS,
       .glCreateShader GL_FRAGMENT_SHADER 5, .glShaderSource 5 1 "fragment source",
       .glCompileShader 5, .glGetShaderiv 5 GL_COMPILE_STATUS,
       .glCreateShader GL_GEOMETRY_SHADER 9,
       .glCompileShader 9, .glGetShaderiv 9 GL_COMPILE_STATUS,
       .glCreateProgram 12, .glAttachShader 12 1, .glAttachShader 12 5, .glAttachShader 12 9,
       .glLinkProgram 12, .glGetProgramiv 12 GL_LINK_STATUS,
       .glDeleteShader 1, .glDeleteShader 5, .glDeleteShader 9] ∧
    shaderSources
        (Shader.ctor demoEnv "shader.vs" "shader.fs" (some "shader.gs") World.empty).2.calls
      = [(1, "vertex source"), (5, "fragment source")] := by
  decide

theorem uploads_append (a b : List Call) : uploads (a ++ b) = uploads a ++ uploads b := by
  simp [uploads, List.filterMap_append]

/-- C5: `Shader::set`, for every overload, name and value, leaves the `Shader` as it
was, prints nothing, and makes two backend calls: the location query for
`(ID, name)` and then one upload. That upload is the entry point matching the value's
type, at the location the query returned, carrying the value's own scalars (a `bool` as
`0` or `1`), with count `1` and transpose `GL_FALSE` where the entry point has them; it
is the only upload added to the trace. -/
theorem Shader_set_passthrough (env : Env) (s : Shader) (name : String)
    (value : UniformValue) (w : World) :
    (Shader.set env s name value w).1 = s ∧
    (Shader.set env s name value w).2.out = w.out ∧
    (∃ c, (Shader.set env s name value w).2.calls
        = w.calls ++ [.glGetUniformLocation s.ID name, c] ∧
      c.upload? = some (expectedUpload (env.glGetUniformLocation w.calls s.ID name) value)) ∧
    uploads (Shader.set env s name value w).2.calls
      = uploads w.calls ++ [expectedUpload (env.glGetUniformLocation w.calls s.ID name) value] := by
  refine ⟨rfl, rfl, ⟨uploadCall (env.glGetUniformLocation w.calls s.ID name) value, ?_, ?_⟩, ?_⟩
  · simp [Shader.set, Shader.location]
  · cases value <;>
      simp [uploadCall, Call.upload?, expectedUpload, boolToInt, GL_FALSE, Vec2.data, Vec3.data,
        Vec4.data]
  · cases value <;>
      simp [Shader.set, Shader.location, uploads_append] <;>
      simp [uploads, uploadCall, Call.upload?, expectedUpload, boolToInt, GL_FALSE, Vec2.data,
        Vec3.data, Vec4.data]

/-! ### Model.cpp: the texture cache -/

theorem generatedTextures_append (a b : List Call) :
    generatedTextures (a ++ b) = generatedTextures a ++ generatedTextures b := by
  simp [generatedTextures, List.filterMap_append]

theorem decodedFiles_append (a b : List Call) :
    decodedFiles (a ++ b) = decodedFiles a ++ decodedFiles b := by
  simp [decodedFiles, List.filterMap_append]

theorem uploadFormats_append (a b : List Call) :
    uploadFormats (a ++ b) = uploadFormats a ++ uploadFormats b := by
  simp [uploadFormats, List.filterMap_append]

theorem assimpErrors_append (a b : List Diag) :
    assimpErrors (a ++ b) = assimpErrors a ++ assimpErrors b := by
  simp [assimpErrors, List.filter_append]

theorem textureFromFile_generated (env : Env) (path directory : String) (param : GLint)
    (gamma : Bool) (w : World) :
    generatedTextures (textureFromFile env path directory param gamma w).2.calls
      = generatedTextures w.calls
        ++ [(textureFromFile env path directory param gamma w).1] := by
  cases h : env.stbi_load (directory.push '/' ++ path) <;>
    simp [textureFromFile, h, generatedTextures_append] <;> simp [generatedTextures]

theorem textureFromFile_decoded (env : Env) (path directory : String) (param : GLint)
    (gamma : Bool) (w : World) :
    decodedFiles (textureFromFile env path directory param gamma w).2.calls
      = decodedFiles w.calls ++ [resolve directory path] := by
  cases h : env.stbi_load (directory.push '/' ++ path) <;>
    simp [textureFromFile, h, decodedFiles_append] <;> simp [decodedFiles, resolve]

theorem textureFromFile_errs (env : Env) (path directory : String) (param : GLint)
    (gamma : Bool) (w : World) :
    assimpErrors (textureFromFile env path directory param gamma w).2.out
      = assimpErrors w.out := by
  cases h : env.stbi_load (directory.push '/' ++ path) <;>
    simp [textureFromFile, h, assimpErrors_append, assimpErrors]

theorem findLoaded_some {loaded : List Texture} {str : String} {t : Texture}
    (h : findLoaded loaded str = some t) : t ∈ loaded ∧ t.path = str := by
  unfold findLoaded at h
  refine ⟨List.mem_of_find?_eq_some h, ?_⟩
  have := List.find?_some h
  simpa using this

theorem findLoaded_none {loaded : List Texture} {str : String}
    (h : findLoaded loaded str = none) : str ∉ loaded.map (fun t => t.path) := by
  unfold findLoaded at h
  rw [List.find?_eq_none] at h
  intro hmem
  rcases List.mem_map.1 hmem with ⟨t, ht, rfl⟩
  exact h t ht (by simp)

theorem Loaded.refl (m : Model) (w : World) : Loaded m w m w [] [] where
  cache := by simp
  dir := rfl
  gamma := rfl
  gen := by simp
  decoded := by simp
  errs := rfl
  fresh := by simp
  nodup := by simp
  covered := by simp

theorem Loaded.trans {m m1 m2 : Model} {w w1 w2 : World} {p1 p2 : List String}
    {a1 a2 : List Texture} (h1 : Loaded m w m1 w1 p1 a1) (h2 : Loaded m1 w1 m2 w2 p2 a2) :
    Loaded m w m2 w2 (p1 ++ p2) (a1 ++ a2) where
  cache := by rw [h2.cache, h1.cache, List.append_assoc]
  dir := by rw [h2.dir, h1.dir]
  gamma := by rw [h2.gamma, h1.gamma]
  gen := by rw [h2.gen, h1.gen]; simp
  decoded := by rw [h2.decoded, h1.decoded, h1.dir]; simp
  errs := by rw [h2.errs, h1.errs]
  fresh := by
    intro t ht
    rcases List.mem_append.1 ht with ht | ht
    · exact ⟨List.mem_append_left _ (h1.fresh t ht).1, (h1.fresh t ht).2⟩
    · refine ⟨List.mem_append_right _ (h2.fresh t ht).1, fun hm => (h2.fresh t ht).2 ?_⟩
      rw [h1.cache, List.map_append]
      exact List.mem_append_left _ hm
  nodup := by
    rw [List.map_append, List.nodup_append]
    refine ⟨h1.nodup, h2.nodup, ?_⟩
    intro p hp1 hp2
    rcases List.mem_map.1 hp2 with ⟨t, ht, rfl⟩
    apply (h2.fresh t ht).2
    rw [h1.cache, List.map_append]
    exact List.mem_append_right _ hp1
  covered := by
    intro p hp
    rcases List.mem_append.1 hp with hp | hp
    · have := h1.covered p hp
      rw [← List.append_assoc, List.map_append]
      exact List.mem_append_left _ this
    · have := h2.covered p hp
      rw [h1.cache] at this
      rw [← List.append_assoc]
      exact this

/-- One visit of a texture reference: what it returns is a record of the cache with
the path asked for, and the visit is a `Loaded` stretch over that one path. -/
theorem loadTexture_loaded (env : Env) (typeName str : String) (m : Model) (w : World) :
    ∃ added, Loaded m w (loadTexture env typeName str m w).2.1
        (loadTexture env typeName str m w).2.2 [str] added ∧
      (loadTexture env typeName str m w).1 ∈
        (loadTexture env typeName str m w).2.1.textures_loaded_ ∧
      (loadTexture env typeName str m w).1.path = str ∧
      (loadTexture env typeName str m w).2.1.meshes_ = m.meshes_ := by
  unfold loadTexture
  cases hf : findLoaded m.textures_loaded_ str with
  | some t =>
    obtain ⟨hmem, hpath⟩ := findLoaded_some hf
    refine ⟨[], ?_, hmem, hpath, rfl⟩
    exact
      { Loaded.refl m w with
        fresh := by simp
        covered := by
          intro p hp
          simp only [List.mem_singleton] at hp
          subst hp
          simp only [List.append_nil]
          exact List.mem_map.2 ⟨t, hmem, hpath⟩ }
  | none =>
    have hnot := findLoaded_none hf
    refine ⟨[⟨(textureFromFile env str m.directory_ env.paramDefault env.gammaDefault w).1,
      typeName, str⟩], ?_, by simp, rfl, rfl⟩
    exact
      { cache := rfl
        dir := rfl
        gamma := rfl
        gen := by simp [textureFromFile_generated]
        decoded := by simp [textureFromFile_decoded]
        errs := by simp [textureFromFile_errs]
        fresh := by
          intro t ht
          simp only [List.mem_singleton] at ht
          subst ht
          exact ⟨by simp, hnot⟩
        nodup := by simp
        covered := by
          intro p hp
          simp only [List.mem_singleton] at hp
          subst hp
          simp }

/-- The loop of `loadMaterialTextures`: it returns one record per path, in order, each a
record of the cache, and is a `Loaded` stretch over these paths. -/
theorem loadTextures_loaded (env : Env) (typeName : String) :
    ∀ (strs : List String) (m : Model) (w : World),
      ∃ added, Loaded m w (loadTextures env typeName strs m w).2.1
          (loadTextures env typeName strs m w).2.2 strs added ∧
        (loadTextures env typeName strs m w).1.map (fun t => t.path) = strs ∧
        (∀ t ∈ (loadTextures env typeName strs m w).1,
          t ∈ (loadTextures env typeName strs m w).2.1.textures_loaded_) ∧
        (loadTextures env typeName strs m w).2.1.meshes_ = m.meshes_
  | [], m, w => ⟨[], Loaded.refl m w, rfl, by simp [loadTextures], rfl⟩
  | str :: rest, m, w => by
    obtain ⟨a1, h1, hmem1, hpath1, hmesh1⟩ := loadTexture_loaded env typeName str m w
    obtain ⟨a2, h2, hpaths2, hmem2, hmesh2⟩ :=
      loadTextures_loaded env typeName rest (loadTexture env typeName str m w).2.1
        (loadTexture env typeName str m w).2.2
    refine ⟨a1 ++ a2, ?_, ?_, ?_, ?_⟩
    · simpa [loadTextures] using h1.trans h2
    · simp [loadTextures, hpath1, hpaths2]
    · intro t ht
      simp only [loadTextures, List.mem_cons] at ht ⊢
      rcases ht with rfl | ht
      · rw [h2.cache]
        exact List.mem_append_left _ hmem1
      · exact hmem2 t ht
    · simp only [loadTextures]
      rw [hmesh2, hmesh1]

/-! ### Model.cpp: vertices, meshes and the node tree -/

theorem processVertex_wellFormed {scene : AiScene} {mesh : AiMesh}
    (hwf : mesh.wellFormed scene = true) {i : Nat} (hi : i < mesh.mNumVertices) :
    ∃ v, processVertex mesh i = some v := by
  simp only [AiMesh.wellFormed, Bool.and_eq_true, decide_eq_true_eq] at hwf
  obtain ⟨⟨⟨⟨hn, ht⟩, hb⟩, huv⟩, _⟩ := hwf
  have hp : i < mesh.mVertices.length := hi
  unfold processVertex
  rw [List.getElem?_eq_getElem hp, List.getElem?_eq_getElem (lt_of_lt_of_le hi hn),
    List.getElem?_eq_getElem (lt_of_lt_of_le hi ht),
    List.getElem?_eq_getElem (lt_of_lt_of_le hi hb)]
  cases huv0 : mesh.mTextureCoords 0 with
  | none => exact ⟨_, rfl⟩
  | some uv =>
    rw [huv0] at huv
    simp only [decide_eq_true_eq] at huv
    simp only [List.getElem?_eq_getElem (lt_of_lt_of_le hi huv), Option.map_some']
    exact ⟨_, rfl⟩

theorem processVertices_wellFormed {scene : AiScene} {mesh : AiMesh}
    (hwf : mesh.wellFormed scene = true) :
    ∀ (is : List Nat), (∀ i ∈ is, i < mesh.mNumVertices) →
      ∃ vs, processVertices mesh is = some vs
  | [], _ => ⟨[], rfl⟩
  | i :: rest, h => by
    obtain ⟨v, hv⟩ := processVertex_wellFormed hwf (h i (List.mem_cons_self _ _))
    obtain ⟨vs, hvs⟩ := processVertices_wellFormed hwf rest
      (fun j hj => h j (List.mem_cons_of_mem _ hj))
    exact ⟨v :: vs, by simp [processVertices, hv, hvs]⟩

theorem processVertices_length {mesh : AiMesh} :
    ∀ (is : List Nat) (vs : List Vertex), processVertices mesh is = some vs →
      vs.length = is.length
  | [], vs, h => by
    simp only [processVertices, Option.some.injEq] at h
    subst h; rfl
  | i :: rest, vs, h => by
    simp only [processVertices] at h
    cases hv : processVertex mesh i with
    | none => simp [hv] at h
    | some v =>
      cases hr : processVertices mesh rest with
      | none => simp [hv, hr] at h
      | some vr =>
        simp only [hv, hr, Option.some.injEq] at h
        subst h
        simp [processVertices_length rest vr hr]

theorem processVertex_texCoords_zero {mesh : AiMesh} (h0 : mesh.mTextureCoords 0 = none)
    {i : Nat} {v : Vertex} (h : processVertex mesh i = some v) : v.texCoords = ⟨0, 0⟩ := by
  unfold processVertex at h
  rw [h0] at h
  cases hp : mesh.mVertices[i]? <;> cases hn : mesh.mNormals[i]? <;>
    cases ht : mesh.mTangents[i]? <;> cases hb : mesh.mBitangents[i]? <;>
    simp [hp, hn, ht, hb] at h
  subst h
  rfl

theorem processVertices_texCoords_zero {mesh : AiMesh} (h0 : mesh.mTextureCoords 0 = none) :
    ∀ (is : List Nat) (vs : List Vertex), processVertices mesh is = some vs →
      ∀ v ∈ vs, v.texCoords = ⟨0, 0⟩
  | [], vs, h => by
    simp only [processVertices, Option.some.injEq] at h
    subst h; simp
  | i :: rest, vs, h => by
    simp only [processVertices] at h
    cases hv : processVertex mesh i with
    | none => simp [hv] at h
    | some v =>
      cases hr : processVertices mesh rest with
      | none => simp [hv, hr] at h
      | some vr =>
        simp only [hv, hr, Option.some.injEq] at h
        subst h
        intro x hx
        rcases List.mem_cons.1 hx with rfl | hx
        · exact processVertex_texCoords_zero h0 hv
        · exact processVertices_texCoords_zero h0 rest vr hr x hx

/-- What `processMesh` does when it returns: the geometry is that of the mesh, the
textures are one cache record per reference of its material, in slot order, and the call
is a `Loaded` stretch over those references that leaves the mesh sequence alone. -/
theorem processMesh_loaded {env : Env} {mesh : AiMesh} {scene : AiScene} {m m' : Model}
    {w w' : World} {me : Mesh} (h : processMesh env mesh scene m w = some (me, m', w')) :
    ∃ mat added, scene.mMaterials[mesh.mMaterialIndex]? = some mat ∧
      Loaded m w m' w' (materialPaths mat) added ∧
      me.textures.map (fun t => t.path) = materialPaths mat ∧
      (∀ t ∈ me.textures, t ∈ m'.textures_loaded_) ∧
      m'.meshes_ = m.meshes_ ∧
      processVertices mesh (List.range mesh.mNumVertices) = some me.vertices ∧
      me.indices = processFaces mesh.mFaces := by
  unfold processMesh at h
  cases hv : processVertices mesh (List.range mesh.mNumVertices) with
  | none => simp [hv] at h
  | some vs =>
    cases hm : scene.mMaterials[mesh.mMaterialIndex]? with
    | none => simp [hv, hm] at h
    | some mat =>
      simp only [hv, hm, loadMaterialTextures, Option.some.injEq, Prod.mk.injEq] at h
      obtain ⟨hme, hm', hw'⟩ := h
      obtain ⟨a1, l1, p1, c1, e1⟩ :=
        loadTextures_loaded env "texture_diffuse" (mat.textures aiTextureType_DIFFUSE) m w
      generalize loadTextures env "texture_diffuse" (mat.textures aiTextureType_DIFFUSE) m w
        = r1 at *
      obtain ⟨a2, l2, p2, c2, e2⟩ :=
        loadTextures_loaded env "texture_specular" (mat.textures aiTextureType_SPECULAR)
          r1.2.1 r1.2.2
      generalize loadTextures env "texture_specular" (mat.textures aiTextureType_SPECULAR)
        r1.2.1 r1.2.2 = r2 at *
      obtain ⟨a3, l3, p3, c3, e3⟩ :=
        loadTextures_loaded env "texture_normal" (mat.textures aiTextureType_HEIGHT)
          r2.2.1 r2.2.2
      generalize loadTextures env "texture_normal" (mat.textures aiTextureType_HEIGHT)
        r2.2.1 r2.2.2 = r3 at *
      obtain ⟨a4, l4, p4, c4, e4⟩ :=
        loadTextures_loaded env "texture_height" (mat.textures aiTextureType_AMBIENT)
          r3.2.1 r3.2.2
      generalize loadTextures env "texture_height" (mat.textures aiTextureType_AMBIENT)
        r3.2.1 r3.2.2 = r4 at *
      subst hme hm' hw'
      refine ⟨mat, a1 ++ a2 ++ a3 ++ a4, rfl, ?_, ?_, ?_, ?_, rfl, rfl⟩
      · have := ((l1.trans l2).trans l3).trans l4
        simpa [materialPaths] using this
      · simp [materialPaths, p1, p2, p3, p4]
      · intro t ht
        simp only [List.mem_append] at ht
        rcases ht with ((ht | ht) | ht) | ht
        · rw [l4.cache, l3.cache, l2.cache]
          exact List.mem_append_left _ (List.mem_append_left _ (List.mem_append_left _ (c1 t ht)))
        · rw [l4.cache, l3.cache]
          exact List.mem_append_left _ (List.mem_append_left _ (c2 t ht))
        · rw [l4.cache]
          exact List.mem_append_left _ (c3 t ht)
        · exact c4 t ht
      · rw [e4, e3, e2, e1]

theorem processMesh_wellFormed (env : Env) {mesh : AiMesh} {scene : AiScene}
    (hwf : mesh.wellFormed scene = true) (m : Model) (w : World) :
    ∃ r, processMesh env mesh scene m w = some r := by
  obtain ⟨vs, hvs⟩ := processVertices_wellFormed hwf (List.range mesh.mNumVertices)
    (fun i hi => List.mem_range.1 hi)
  have hmat : mesh.mMaterialIndex < scene.mMaterials.length := by
    simp only [AiMesh.wellFormed, Bool.and_eq_true, decide_eq_true_eq] at hwf
    exact hwf.2
  unfold processMesh
  rw [hvs, List.getElem?_eq_getElem hmat]
  exact ⟨_, rfl⟩

theorem processMeshRefs_append (env : Env) (scene : AiScene) :
    ∀ (a b : List Nat) (m : Model) (w : World),
      processMeshRefs env scene (a ++ b) m w =
        match processMeshRefs env scene a m w with
        | none => none
        | some (m1, w1) => processMeshRefs env scene b m1 w1
  | [], b, m, w => by simp [processMeshRefs]
  | idx :: rest, b, m, w => by
    cases hmesh : scene.mMeshes[idx]? with
    | none => simp [processMeshRefs, hmesh]
    | some mesh =>
      cases hpm : processMesh env mesh scene m w with
      | none => simp [processMeshRefs, hmesh, hpm]
      | some r =>
        obtain ⟨me, m1, w1⟩ := r
        simp only [List.cons_append, processMeshRefs, hmesh, hpm]
        exact processMeshRefs_append env scene rest b _ _

mutual
/-- The recursion of `processNode` visits the mesh references of the tree in depth-first
pre-order: it is the mesh loop run over `meshRefs node`. -/
theorem processNode_eq (env : Env) (scene : AiScene) :
    ∀ (node : AiNode) (m : Model) (w : World),
      processNode env scene node m w = processMeshRefs env scene (meshRefs node) m w
  | .mk meshes children, m, w => by
    rw [processNode, meshRefs, processMeshRefs_append]
    cases processMeshRefs env scene meshes m w with
    | none => rfl
    | some r => exact processChildren_eq env scene children r.1 r.2
theorem processChildren_eq (env : Env) (scene : AiScene) :
    ∀ (children : List AiNode) (m : Model) (w : World),
      processChildren env scene children m w
        = processMeshRefs env scene (meshRefsOfList children) m w
  | [], m, w => by simp [processChildren, meshRefsOfList, processMeshRefs]
  | child :: rest, m, w => by
    rw [processChildren, meshRefsOfList, processMeshRefs_append, processNode_eq env scene child]
    cases processMeshRefs env scene (meshRefs child) m w with
    | none => rfl
    | some r => exact processChildren_eq env scene rest r.1 r.2
end

mutual
theorem meshRefs_length : ∀ (node : AiNode), (meshRefs node).length = sumNumMeshes node
  | .mk meshes children => by
    rw [meshRefs, sumNumMeshes, List.length_append, meshRefsOfList_length children]
theorem meshRefsOfList_length :
    ∀ (children : List AiNode), (meshRefsOfList children).length = sumNumMeshesOfList children
  | [] => rfl
  | child :: rest => by
    rw [meshRefsOfList, sumNumMeshesOfList, List.length_append, meshRefs_length child,
      meshRefsOfList_length rest]
end

/-- What the mesh loop does when it returns: it appends one mesh per reference, in
order, each with the geometry of the mesh referred to and one cache record per texture
reference of its material; and the whole loop is a `Loaded` stretch over all these
references. -/
theorem processMeshRefs_loaded (env : Env) (scene : AiScene) :
    ∀ (refs : List Nat) (m : Model) (w : World) (m' : Model) (w' : World),
      processMeshRefs env scene refs m w = some (m', w') →
      ∃ newMeshes added, m'.meshes_ = m.meshes_ ++ newMeshes ∧
        Loaded m w m' w' ((refs.map (meshPaths scene)).flatten) added ∧
        newMeshes.map (fun me => me.textures.map (fun t => t.path))
          = refs.map (meshPaths scene) ∧
        newMeshes.map (fun me => some (me.vertices, me.indices))
          = refs.map (meshGeometry scene) ∧
        ∀ me ∈ newMeshes, ∀ t ∈ me.textures, t ∈ m'.textures_loaded_
  | [], m, w, m', w', h => by
    simp only [processMeshRefs, Option.some.injEq, Prod.mk.injEq] at h
    obtain ⟨rfl, rfl⟩ := h
    exact ⟨[], [], by simp, Loaded.refl m w, rfl, rfl, by simp⟩
  | idx :: rest, m, w, m', w', h => by
    simp only [processMeshRefs] at h
    cases hmesh : scene.mMeshes[idx]? with
    | none => simp [hmesh] at h
    | some mesh =>
      cases hpm : processMesh env mesh scene m w with
      | none => simp [hmesh, hpm] at h
      | some r =>
        obtain ⟨me, m1, w1⟩ := r
        simp only [hmesh, hpm] at h
        obtain ⟨mat, a1, hmat, l1, hp1, hc1, hm1, hv1, hi1⟩ := processMesh_loaded hpm
        obtain ⟨news, a2, hm2, l2, hp2, hg2, hc2⟩ :=
          processMeshRefs_loaded env scene rest _ _ m' w' h
        have l2' : Loaded m1 w1 m' w' ((rest.map (meshPaths scene)).flatten) a2 :=
          { l2 with fresh := l2.fresh, covered := l2.covered }
        refine ⟨me :: news, a1 ++ a2, ?_, ?_, ?_, ?_, ?_⟩
        · rw [hm2]; simp [hm1]
        · have := l1.trans l2'
          simpa [meshPaths, hmesh, hmat] using this
        · simp [hp2, hp1, meshPaths, hmesh, hmat]
        · simp [hg2, meshGeometry, hmesh, hv1, hi1]
        · intro x hx t ht
          rcases List.mem_cons.1 hx with rfl | hx
          · rw [l2'.cache]
            exact List.mem_append_left _ (hc1 t ht)
          · exact hc2 x hx t ht

theorem processMeshRefs_wellFormed (env : Env) (scene : AiScene) :
    ∀ (refs : List Nat) (m : Model) (w : World), refsWellFormed scene refs = true →
      ∃ r, processMeshRefs env scene refs m w = some r
  | [], m, w, _ => ⟨(m, w), rfl⟩
  | idx :: rest, m, w, h => by
    simp only [refsWellFormed, List.all_cons, Bool.and_eq_true] at h
    obtain ⟨hidx, hrest⟩ := h
    cases hmesh : scene.mMeshes[idx]? with
    | none => simp [hmesh] at hidx
    | some mesh =>
      rw [hmesh] at hidx
      obtain ⟨r, hr⟩ := processMesh_wellFormed env hidx m w
      obtain ⟨me, m1, w1⟩ := r
      simp only [processMeshRefs, hmesh, hr]
      exact processMeshRefs_wellFormed env scene rest _ _ hrest

/-! ### Model.cpp: the load as a whole -/

theorem loadModel_eq (env : Env) (path : String) (m : Model) (w : World) {scene : AiScene}
    {root : AiNode} (hread : env.ReadFile path importFlags = some scene)
    (hflags : scene.mFlags &&& AI_SCENE_FLAGS_INCOMPLETE = 0)
    (hroot : scene.mRootNode = some root) :
    loadModel env path m w =
      processMeshRefs env scene (meshRefs root)
        { m with directory_ := substr path 0 (find_last_of path '/') } w := by
  unfold loadModel
  simp only [hread, hflags, hroot, ne_eq, not_true_eq_false, if_false]
  exact processNode_eq env scene root _ _

theorem importFailed_false {r : Option AiScene} (h : importFailed r = false) :
    ∃ scene root, r = some scene ∧ scene.mFlags &&& AI_SCENE_FLAGS_INCOMPLETE = 0 ∧
      scene.mRootNode = some root := by
  cases r with
  | none => simp [importFailed] at h
  | some scene =>
    simp only [importFailed, Bool.or_eq_false_iff, bne_eq_false_iff_eq,
      Option.isNone_eq_false_iff, Option.isSome_iff_exists] at h
    obtain ⟨hf, root, hr⟩ := h
    exact ⟨scene, root, rfl, hf, hr⟩

theorem loadModel_failed (env : Env) (path : String) (m : Model) (w : World)
    (h : importFailed (env.ReadFile path importFlags) = true) :
    loadModel env path m w = some (m, w.print (.assimpError (env.GetErrorString path))) := by
  unfold loadModel
  cases hr : env.ReadFile path importFlags with
  | none => rfl
  | some scene =>
    rw [hr] at h
    simp only [importFailed, Bool.or_eq_true, bne_iff_ne, ne_eq, Option.isNone_iff_eq_none] at h
    by_cases hf : scene.mFlags &&& AI_SCENE_FLAGS_INCOMPLETE = 0
    · have hroot : scene.mRootNode = none := by
        rcases h with h | h
        · exact absurd hf h
        · exact h
      simp [hf, hroot]
    · simp [hf]

/-- C1: for an import that succeeds (scene `scene` with root `root`), constructing the
model runs the mesh conversion over the mesh references of the tree in depth-first
pre-order, one `processMesh` per reference, threading cache and world; and on a
well-formed scene it returns a model whose mesh sequence has one entry per reference,
`sumNumMeshes root` in all, the `i`-th entry having the geometry and the texture paths
of the mesh the `i`-th reference names (so a mesh referenced `k` times is converted `k`
times). -/
theorem Model_ctor_meshes_preorder (env : Env) (path : String) (gamma : Bool) (w : World)
    (scene : AiScene) (root : AiNode)
    (hread : env.ReadFile path importFlags = some scene)
    (hflags : scene.mFlags &&& AI_SCENE_FLAGS_INCOMPLETE = 0)
    (hroot : scene.mRootNode = some root)
    (hwf : sceneWellFormed scene root = true) :
    Model.ctor env path gamma w =
      processMeshRefs env scene (meshRefs root)
        ⟨[], [], substr path 0 (find_last_of path '/'), gamma⟩ w ∧
    ∃ m' w', Model.ctor env path gamma w = some (m', w') ∧
      m'.meshes_.length = sumNumMeshes root ∧
      (meshRefs root).length = sumNumMeshes root ∧
      m'.meshes_.map (fun me => some (me.vertices, me.indices))
        = (meshRefs root).map (meshGeometry scene) ∧
      m'.meshes_.map (fun me => me.textures.map (fun t => t.path))
        = (meshRefs root).map (meshPaths scene) := by
  have heq := loadModel_eq env path ⟨[], [], "", gamma⟩ w hread hflags hroot
  refine ⟨heq, ?_⟩
  obtain ⟨⟨m', w'⟩, hr⟩ := processMeshRefs_wellFormed env scene (meshRefs root)
    ⟨[], [], substr path 0 (find_last_of path '/'), gamma⟩ w hwf
  obtain ⟨news, added, hm, _, hp, hg, _⟩ := processMeshRefs_loaded env scene _ _ _ _ _ hr
  simp only [List.nil_append] at hm
  refine ⟨m', w', ?_, ?_, meshRefs_length root, ?_, ?_⟩
  · unfold Model.ctor; rw [heq]; exact hr
  · have := congrArg List.length hp
    simp only [List.length_map] at this
    rw [hm, this, meshRefs_length]
  · rw [hm]; exact hg
  · rw [hm]; exact hp

/-- Witness for C1: the demo scene, whose crate mesh is referenced by two nodes. -/
theorem Model_ctor_meshes_preorder_witness :
    sceneWellFormed demoScene demoRoot = true ∧ meshRefs demoRoot = [0, 1, 0, 1] ∧
    (Model.ctor demoEnv "models/crate/crate.obj" false World.empty =
      processMeshRefs demoEnv demoScene (meshRefs demoRoot)
        ⟨[], [], substr "models/crate/crate.obj" 0
          (find_last_of "models/crate/crate.obj" '/'), false⟩ World.empty ∧
    ∃ m' w', Model.ctor demoEnv "models/crate/crate.obj" false World.empty = some (m', w') ∧
      m'.meshes_.length = sumNumMeshes demoRoot ∧
      (meshRefs demoRoot).length = sumNumMeshes demoRoot ∧
      m'.meshes_.map (fun me => some (me.vertices, me.indices))
        = (meshRefs demoRoot).map (meshGeometry demoScene) ∧
      m'.meshes_.map (fun me => me.textures.map (fun t => t.path))
        = (meshRefs demoRoot).map (meshPaths demoScene)) :=
  ⟨by decide, by decide,
   Model_ctor_meshes_preorder demoEnv "models/crate/crate.obj" false World.empty demoScene
     demoRoot rfl (by decide) rfl (by decide)⟩

theorem Model_ctor_loaded (env : Env) (path : String) (gamma : Bool) (w : World)
    {scene : AiScene} {root : AiNode}
    (hread : env.ReadFile path importFlags = some scene)
    (hflags : scene.mFlags &&& AI_SCENE_FLAGS_INCOMPLETE = 0)
    (hroot : scene.mRootNode = some root) {m' : Model} {w' : World}
    (h : Model.ctor env path gamma w = some (m', w')) :
    Loaded ⟨[], [], substr path 0 (find_last_of path '/'), gamma⟩ w m' w'
        (referencedPaths scene root) m'.textures_loaded_ ∧
      m'.meshes_.map (fun me => me.textures.map (fun t => t.path))
        = (meshRefs root).map (meshPaths scene) ∧
      ∀ me ∈ m'.meshes_, ∀ t ∈ me.textures, t ∈ m'.textures_loaded_ := by
  unfold Model.ctor at h
  rw [loadModel_eq env path _ w hread hflags hroot] at h
  obtain ⟨news, added, hm, hl, hp, _, hc⟩ := processMeshRefs_loaded env scene _ _ _ _ _ h
  simp only [List.nil_append] at hm
  have hcache : m'.textures_loaded_ = added := by simpa using hl.cache
  rw [hm, hcache]
  rw [hcache] at hc
  exact ⟨hl, hp, hc⟩

theorem Model_ctor_total (env : Env) (path : String) (gamma : Bool) (w : World)
    {scene : AiScene} {root : AiNode}
    (hread : env.ReadFile path importFlags = some scene)
    (hflags : scene.mFlags &&& AI_SCENE_FLAGS_INCOMPLETE = 0)
    (hroot : scene.mRootNode = some root)
    (hwf : sceneWellFormed scene root = true) :
    ∃ m' w', Model.ctor env path gamma w = some (m', w') := by
  obtain ⟨⟨m', w'⟩, hr⟩ := processMeshRefs_wellFormed env scene (meshRefs root)
    ⟨[], [], substr path 0 (find_last_of path '/'), gamma⟩ w hwf
  refine ⟨m', w', ?_⟩
  unfold Model.ctor
  rw [loadModel_eq env path _ w hread hflags hroot]
  exact hr

/-- C2: in one model load (a successful import of a well-formed scene), the texture
allocations correspond one to one, in order, to the records of the cache
(`generatedTextures` grows by exactly the ids of `textures_loaded_`); the cache holds
each referenced path exactly once and nothing else, so the number of allocations is the
number of distinct referenced paths; every texture reference of every mesh yields a
record with the referenced path which is a record of the cache; hence two references
with the same path yield the same record, with the handle of the one allocation made for
that path. -/
theorem Model_ctor_one_allocation_per_path (env : Env) (path : String) (gamma : Bool)
    (w : World) (scene : AiScene) (root : AiNode)
    (hread : env.ReadFile path importFlags = some scene)
    (hflags : scene.mFlags &&& AI_SCENE_FLAGS_INCOMPLETE = 0)
    (hroot : scene.mRootNode = some root)
    (hwf : sceneWellFormed scene root = true) :
    ∃ m' w', Model.ctor env path gamma w = some (m', w') ∧
      generatedTextures w'.calls
        = generatedTextures w.calls ++ m'.textures_loaded_.map (fun t => t.id) ∧
      (m'.textures_loaded_.map (fun t => t.path)).Nodup ∧
      (∀ p, p ∈ m'.textures_loaded_.map (fun t => t.path) ↔ p ∈ referencedPaths scene root) ∧
      (generatedTextures w'.calls).length
        = (generatedTextures w.calls).length + (referencedPaths scene root).toFinset.card ∧
      m'.meshes_.map (fun me => me.textures.map (fun t => t.path))
        = (meshRefs root).map (meshPaths scene) ∧
      (∀ me ∈ m'.meshes_, ∀ t ∈ me.textures, t ∈ m'.textures_loaded_) ∧
      (∀ me₁ ∈ m'.meshes_, ∀ me₂ ∈ m'.meshes_, ∀ t₁ ∈ me₁.textures, ∀ t₂ ∈ me₂.textures,
        t₁.path = t₂.path → t₁ = t₂) := by
  obtain ⟨m', w', h⟩ := Model_ctor_total env path gamma w hread hflags hroot hwf
  obtain ⟨hl, hp, hc⟩ := Model_ctor_loaded env path gamma w hread hflags hroot h
  have hmem : ∀ p, p ∈ m'.textures_loaded_.map (fun t => t.path)
      ↔ p ∈ referencedPaths scene root := by
    intro p
    constructor
    · intro hp'
      rcases List.mem_map.1 hp' with ⟨t, ht, rfl⟩
      exact (hl.fresh t ht).1
    · intro hp'
      simpa using hl.covered p hp'
  refine ⟨m', w', h, hl.gen, hl.nodup, hmem, ?_, hp, hc, ?_⟩
  · rw [hl.gen, List.length_append, List.length_map]
    congr 1
    have hcard := List.toFinset_card_of_nodup hl.nodup
    rw [List.length_map] at hcard
    rw [← hcard]
    congr 1
    ext p
    simp only [List.mem_toFinset]
    exact hmem p
  · intro me₁ h₁ me₂ h₂ t₁ ht₁ t₂ ht₂ hpath
    exact List.inj_on_of_nodup_map hl.nodup (hc me₁ h₁ t₁ ht₁) (hc me₂ h₂ t₂ ht₂) hpath

/-- Witness for C2: the demo scene, whose ten texture references name three paths. -/
theorem Model_ctor_one_allocation_per_path_witness :
    referencedPaths demoScene demoRoot =
      ["wood.png", "wood.png", "gray.png", "gray.png", "bump.png",
       "wood.png", "wood.png", "gray.png", "gray.png", "bump.png"] ∧
    ∃ m' w', Model.ctor demoEnv "models/crate/crate.obj" false World.empty = some (m', w') ∧
      generatedTextures w'.calls
        = generatedTextures World.empty.calls ++ m'.textures_loaded_.map (fun t => t.id) ∧
      (m'.textures_loaded_.map (fun t => t.path)).Nodup ∧
      (∀ p, p ∈ m'.textures_loaded_.map (fun t => t.path)
        ↔ p ∈ referencedPaths demoScene demoRoot) ∧
      (generatedTextures w'.calls).length
        = (generatedTextures World.empty.calls).length
          + (referencedPaths demoScene demoRoot).toFinset.card ∧
      m'.meshes_.map (fun me => me.textures.map (fun t => t.path))
        = (meshRefs demoRoot).map (meshPaths demoScene) ∧
      (∀ me ∈ m'.meshes_, ∀ t ∈ me.textures, t ∈ m'.textures_loaded_) ∧
      (∀ me₁ ∈ m'.meshes_, ∀ me₂ ∈ m'.meshes_, ∀ t₁ ∈ me₁.textures, ∀ t₂ ∈ me₂.textures,
        t₁.path = t₂.path → t₁ = t₂) :=
  ⟨by decide,
   Model_ctor_one_allocation_per_path demoEnv "models/crate/crate.obj" false World.empty
     demoScene demoRoot rfl (by decide) rfl (by decide)⟩

/-- C7: `loadModel` takes its failure exit (it returns the model it was given,
unchanged, with no backend call made and exactly one line, the import error, printed)
exactly when the importer returned no scene, a scene flagged incomplete, or a scene
without root node; it returns normally in that case, and a model under construction is
then left empty with its directory unset. -/
theorem loadModel_fails_iff (env : Env) (path : String) (gamma : Bool) (m : Model)
    (w : World) :
    (loadModel env path m w
        = some (m, ⟨w.calls, w.out ++ [.assimpError (env.GetErrorString path)]⟩)
      ↔ importFailed (env.ReadFile path importFlags) = true) ∧
    (importFailed (env.ReadFile path importFlags) = true
      ↔ env.ReadFile path importFlags = none ∨
        ∃ scene, env.ReadFile path importFlags = some scene ∧
          (scene.mFlags &&& AI_SCENE_FLAGS_INCOMPLETE ≠ 0 ∨ scene.mRootNode = none)) ∧
    (Model.ctor env path gamma w
        = some (⟨[], [], "", gamma⟩, ⟨w.calls, w.out ++ [.assimpError (env.GetErrorString path)]⟩)
      ↔ importFailed (env.ReadFile path importFlags) = true) := by
  have key : ∀ m₀ : Model, (loadModel env path m₀ w
        = some (m₀, ⟨w.calls, w.out ++ [.assimpError (env.GetErrorString path)]⟩)
      ↔ importFailed (env.ReadFile path importFlags) = true) := by
    intro m₀
    constructor
    · intro h
      by_contra hne
      rw [Bool.not_eq_true] at hne
      obtain ⟨scene, root, hread, hflags, hroot⟩ := importFailed_false hne
      rw [loadModel_eq env path m₀ w hread hflags hroot] at h
      obtain ⟨_, _, _, hl, _⟩ := processMeshRefs_loaded env scene _ _ _ _ _ h
      have := congrArg List.length hl.errs
      simp [assimpErrors_append, assimpErrors] at this
    · intro h
      exact loadModel_failed env path m₀ w h
  refine ⟨key m, ?_, key _⟩
  cases hr : env.ReadFile path importFlags with
  | none => simp [importFailed]
  | some scene => simp [importFailed]

/-- C3 as stated fails: the crate mesh has no second UV channel (`mTextureCoords 1` is
null) but has a first one, and `processMesh` gives its vertex the coordinate `(5, 7)` of
that first channel, not `(0, 0)`. -/
theorem processMesh_second_channel_counterexample :
    crateMesh.mTextureCoords 1 = none ∧
    (processMesh demoEnv crateMesh demoScene ⟨[], [], "models/crate", false⟩ World.empty).map
        (fun r => r.1.vertices.map (fun v => v.texCoords))
      = some [⟨5, 7⟩] := by
  decide

/-- C3, amended: for a well-formed mesh lacking the first UV channel
(`mTextureCoords[0]` null), `processMesh` returns a mesh with one vertex per input
vertex, every one with texture coordinate `(0, 0)`. -/
theorem processMesh_texCoords_zero (env : Env) (mesh : AiMesh) (scene : AiScene) (m : Model)
    (w : World) (hwf : mesh.wellFormed scene = true)
    (h0 : mesh.mTextureCoords 0 = none) :
    ∃ me m' w', processMesh env mesh scene m w = some (me, m', w') ∧
      me.vertices.length = mesh.mNumVertices ∧
      ∀ v ∈ me.vertices, v.texCoords = ⟨0, 0⟩ := by
  obtain ⟨⟨me, m', w'⟩, hr⟩ := processMesh_wellFormed env hwf m w
  obtain ⟨_, _, _, _, _, _, _, hv, _⟩ := processMesh_loaded hr
  refine ⟨me, m', w', hr, ?_, ?_⟩
  · rw [processVertices_length _ _ hv, List.length_range]
  · exact processVertices_texCoords_zero h0 _ _ hv

/-- Witness for the amended C3: the plain mesh, which has no UV channel at all. -/
theorem processMesh_texCoords_zero_witness :
    plainMesh.wellFormed demoScene = true ∧ plainMesh.mTextureCoords 0 = none ∧
    ∃ me m' w', processMesh demoEnv plainMesh demoScene ⟨[], [], "models/crate", false⟩
        World.empty = some (me, m', w') ∧
      me.vertices.length = plainMesh.mNumVertices ∧
      ∀ v ∈ me.vertices, v.texCoords = ⟨0, 0⟩ :=
  ⟨by decide, rfl,
   processMesh_texCoords_zero demoEnv plainMesh demoScene ⟨[], [], "models/crate", false⟩
     World.empty (by decide) rfl⟩

/-- C4 (the code departs from it): for the two-channel image `duo.png` the upload is
issued, and the `format` it passes as internal format and as pixel format is a variable
that no branch assigned (`none`): the value zero the claim expects was never stored. -/
theorem textureFromFile_two_channels_format_unassigned :
    demoEnv.stbi_load (resolve "models/crate" "duo.png") = some ⟨1, 1, 2, [7, 8]⟩ ∧
    chooseFormat 2 = none ∧
    uploadFormats (textureFromFile demoEnv "duo.png" "models/crate" 0x2901 false
      World.empty).2.calls = [(none, none)] ∧
    uploadFormats (textureFromFile demoEnv "duo.png" "models/crate" 0x2901 false
      World.empty).2.calls ≠ [(some 0, some 0)] := by
  decide

/-- The format table of `textureFromFile`: for a decoded image it issues exactly one
`glTexImage2D`, whose internal format and pixel format are one and the same variable:
`GL_RED` for one channel, `GL_RGB` for three, `GL_RGBA` for four, and for every other
channel count a variable that was never assigned. -/
theorem textureFromFile_format (env : Env) (path directory : String) (param : GLint)
    (gamma : Bool) (w : World) (img : Image)
    (hload : env.stbi_load (resolve directory path) = some img) :
    ∃ format, uploadFormats (textureFromFile env path directory param gamma w).2.calls
        = uploadFormats w.calls ++ [(format, format)] ∧
      (img.nrComponents = 1 → format = some GL_RED) ∧
      (img.nrComponents = 3 → format = some GL_RGB) ∧
      (img.nrComponents = 4 → format = some GL_RGBA) ∧
      (img.nrComponents ≠ 1 → img.nrComponents ≠ 3 → img.nrComponents ≠ 4 → format = none) := by
  unfold resolve at hload
  refine ⟨chooseFormat img.nrComponents, ?_, ?_, ?_, ?_, ?_⟩
  · simp [textureFromFile, hload, uploadFormats_append]
    simp [uploadFormats]
  · intro h; simp [chooseFormat, h]
  · intro h; simp [chooseFormat, h]
  · intro h; simp [chooseFormat, h]
  · intro h1 h3 h4; simp [chooseFormat, h1, h3, h4]

/-- The format table at the three-channel image `wood.png`. -/
theorem textureFromFile_format_witness :
    demoEnv.stbi_load (resolve "models/crate" "wood.png") = some ⟨1, 1, 3, [7, 8, 9]⟩ ∧
    ∃ format, uploadFormats (textureFromFile demoEnv "wood.png" "models/crate" 0x2901 false
          World.empty).2.calls
        = uploadFormats World.empty.calls ++ [(format, format)] ∧
      ((⟨1, 1, 3, [7, 8, 9]⟩ : Image).nrComponents = 1 → format = some GL_RED) ∧
      ((⟨1, 1, 3, [7, 8, 9]⟩ : Image).nrComponents = 3 → format = some GL_RGB) ∧
      ((⟨1, 1, 3, [7, 8, 9]⟩ : Image).nrComponents = 4 → format = some GL_RGBA) ∧
      ((⟨1, 1, 3, [7, 8, 9]⟩ : Image).nrComponents ≠ 1 →
        (⟨1, 1, 3, [7, 8, 9]⟩ : Image).nrComponents ≠ 3 →
        (⟨1, 1, 3, [7, 8, 9]⟩ : Image).nrComponents ≠ 4 → format = none) :=
  ⟨by decide,
   textureFromFile_format demoEnv "wood.png" "models/crate" 0x2901 false World.empty
     ⟨1, 1, 3, [7, 8, 9]⟩ (by decide)⟩

theorem findLoaded_first {loaded : List Texture} {str : String} {t : Texture}
    (h : findLoaded loaded str = some t) :
    ∃ before after, loaded = before ++ t :: after ∧
      str ∉ before.map (fun t => t.path) := by
  induction loaded with
  | nil => simp [findLoaded] at h
  | cons x xs ih =>
    by_cases hx : x.path = str
    · have : t = x := by
        simp [findLoaded, List.find?_cons, hx] at h
        exact h.symm
      subst this
      exact ⟨[], xs, rfl, by simp⟩
    · have h' : findLoaded xs str = some t := by
        simpa [findLoaded, List.find?_cons, hx] using h
      obtain ⟨before, after, hb, hn⟩ := ih h'
      refine ⟨x :: before, after, by simp [hb], ?_⟩
      simp only [List.map_cons, List.mem_cons, not_or]
      exact ⟨fun e => hx e.symm, hn⟩

/-- C9: first loaded wins. If the path of a texture reference is already in the cache,
`loadMaterialTextures` yields for it the first cache record with that path, as it is
(handle, path and the type tag it was loaded under, whatever the current slot's type
name), and changes neither cache nor world; otherwise it allocates and decodes one
texture and appends one record, tagged with the current slot's type name, to the
cache, and yields that record. -/
theorem loadTexture_first_loaded_wins (env : Env) (typeName str : String) (m : Model)
    (w : World) :
    (str ∈ m.textures_loaded_.map (fun t => t.path) →
      ∃ t before after, m.textures_loaded_ = before ++ t :: after ∧
        str ∉ before.map (fun t => t.path) ∧ t.path = str ∧
        loadTexture env typeName str m w = (t, m, w) ∧
        loadMaterialTextures env ⟨fun _ => [str]⟩ aiTextureType_DIFFUSE typeName m w
          = ([t], m, w)) ∧
    (str ∉ m.textures_loaded_.map (fun t => t.path) →
      ∃ id w', textureFromFile env str m.directory_ env.paramDefault env.gammaDefault w
          = (id, w') ∧
        loadTexture env typeName str m w
          = (⟨id, typeName, str⟩,
             { m with textures_loaded_ := m.textures_loaded_ ++ [⟨id, typeName, str⟩] }, w') ∧
        loadMaterialTextures env ⟨fun _ => [str]⟩ aiTextureType_DIFFUSE typeName m w
          = ([⟨id, typeName, str⟩],
             { m with textures_loaded_ := m.textures_loaded_ ++ [⟨id, typeName, str⟩] }, w')) := by
  constructor
  · intro hmem
    cases hf : findLoaded m.textures_loaded_ str with
    | none => exact absurd hmem (findLoaded_none hf)
    | some t =>
      obtain ⟨before, after, hsplit, hnot⟩ := findLoaded_first hf
      refine ⟨t, before, after, hsplit, hnot, (findLoaded_some hf).2, ?_, ?_⟩
      · simp [loadTexture, hf]
      · simp [loadMaterialTextures, loadTextures, loadTexture, hf]
  · intro hnot
    cases hf : findLoaded m.textures_loaded_ str with
    | some t =>
      obtain ⟨hmem, hpath⟩ := findLoaded_some hf
      exact absurd (List.mem_map.2 ⟨t, hmem, hpath⟩) hnot
    | none =>
      refine ⟨(textureFromFile env str m.directory_ env.paramDefault env.gammaDefault w).1,
        (textureFromFile env str m.directory_ env.paramDefault env.gammaDefault w).2, rfl,
        ?_, ?_⟩
      · simp [loadTexture, hf]
      · simp [loadMaterialTextures, loadTextures, loadTexture, hf]

/-- Witness for C9: with `wood.png` cached under the diffuse tag, a specular reference
to `wood.png` yields the diffuse record and a specular reference to `gray.png` loads. -/
theorem loadTexture_first_loaded_wins_witness :
    "wood.png" ∈ woodCached.textures_loaded_.map (fun t => t.path) ∧
    "gray.png" ∉ woodCached.textures_loaded_.map (fun t => t.path) ∧
    loadTexture demoEnv "texture_specular" "wood.png" woodCached World.empty
      = (⟨1, "texture_diffuse", "wood.png"⟩, woodCached, World.empty) ∧
    (loadTexture demoEnv "texture_specular" "gray.png" woodCached World.empty).1
      = ⟨1, "texture_specular", "gray.png"⟩ ∧
    (∃ t before after, woodCached.textures_loaded_ = before ++ t :: after ∧
        "wood.png" ∉ before.map (fun t => t.path) ∧ t.path = "wood.png" ∧
        loadTexture demoEnv "texture_specular" "wood.png" woodCached World.empty
          = (t, woodCached, World.empty) ∧
        loadMaterialTextures demoEnv ⟨fun _ => ["wood.png"]⟩ aiTextureType_DIFFUSE
          "texture_specular" woodCached World.empty = ([t], woodCached, World.empty)) ∧
    (∃ id w', textureFromFile demoEnv "gray.png" woodCached.directory_ demoEnv.paramDefault
          demoEnv.gammaDefault World.empty = (id, w') ∧
        loadTexture demoEnv "texture_specular" "gray.png" woodCached World.empty
          = (⟨id, "texture_specular", "gray.png"⟩,
             { woodCached with textures_loaded_ := woodCached.textures_loaded_
                ++ [⟨id, "texture_specular", "gray.png"⟩] }, w') ∧
        loadMaterialTextures demoEnv ⟨fun _ => ["gray.png"]⟩ aiTextureType_DIFFUSE
          "texture_specular" woodCached World.empty
          = ([⟨id, "texture_specular", "gray.png"⟩],
             { woodCached with textures_loaded_ := woodCached.textures_loaded_
                ++ [⟨id, "texture_specular", "gray.png"⟩] }, w')) :=
  ⟨by decide, by decide, by decide, by decide,
   (loadTexture_first_loaded_wins demoEnv "texture_specular" "wood.png" woodCached
     World.empty).1 (by decide),
   (loadTexture_first_loaded_wins demoEnv "texture_specular" "gray.png" woodCached
     World.empty).2 (by decide)⟩

/-! ### Model.cpp: the texture directory -/

theorem lastIndex?_eq_none (c : Char) :
    ∀ (s : List Char), c ∉ s → lastIndex? c s = none
  | [], _ => rfl
  | x :: xs, h => by
    have hx : x ≠ c := fun e => h (e ▸ List.mem_cons_self _ _)
    have hxs : c ∉ xs := fun hm => h (List.mem_cons_of_mem _ hm)
    simp [lastIndex?, lastIndex?_eq_none c xs hxs, hx]

theorem lastIndex?_append_cons (c : Char) (suf : List Char) (hsuf : c ∉ suf) :
    ∀ (pre : List Char), lastIndex? c (pre ++ c :: suf) = some pre.length
  | [] => by simp [lastIndex?, lastIndex?_eq_none c suf hsuf]
  | x :: pre => by simp [lastIndex?, lastIndex?_append_cons c suf hsuf pre]

/-- The directory is what stands before the last `/` of the path. -/
theorem substr_find_last_of_slash (path : String) (pre suf : List Char)
    (hsplit : path.data = pre ++ '/' :: suf) (hsuf : '/' ∉ suf) :
    substr path 0 (find_last_of path '/') = ⟨pre⟩ := by
  simp [substr, find_last_of, hsplit, lastIndex?_append_cons '/' suf hsuf pre]

/-- Without any `/` the directory is the whole path. -/
theorem substr_find_last_of_no_slash (path : String) (hno : '/' ∉ path.data)
    (hlen : path.data.length ≤ npos) :
    substr path 0 (find_last_of path '/') = path := by
  simp only [substr, find_last_of, lastIndex?_eq_none '/' path.data hno, Option.getD_none,
    List.drop_zero, List.take_of_length_le hlen]

theorem resolve_data (directory path : String) :
    (resolve directory path).data = directory.data ++ '/' :: path.data := by
  simp [resolve]

/-- C10: on a successful import (of a well-formed scene) the model's directory is the
part of the model path before its last `/`, or the whole model path when it contains no
`/`; and the files decoded during the load are exactly, in order, one per cache record,
the file named directory, then `/`, then the record's texture path. -/
theorem Model_ctor_directory (env : Env) (path : String) (gamma : Bool) (w : World)
    (scene : AiScene) (root : AiNode)
    (hread : env.ReadFile path importFlags = some scene)
    (hflags : scene.mFlags &&& AI_SCENE_FLAGS_INCOMPLETE = 0)
    (hroot : scene.mRootNode = some root)
    (hwf : sceneWellFormed scene root = true)
    (hlen : path.data.length ≤ npos) :
    ∃ m' w', Model.ctor env path gamma w = some (m', w') ∧
      (∀ pre suf, path.data = pre ++ '/' :: suf → '/' ∉ suf → m'.directory_ = ⟨pre⟩) ∧
      ('/' ∉ path.data → m'.directory_ = path) ∧
      decodedFiles w'.calls
        = decodedFiles w.calls
          ++ m'.textures_loaded_.map (fun t => ⟨m'.directory_.data ++ '/' :: t.path.data⟩) := by
  obtain ⟨m', w', h⟩ := Model_ctor_total env path gamma w hread hflags hroot hwf
  obtain ⟨hl, _, _⟩ := Model_ctor_loaded env path gamma w hread hflags hroot h
  have hdir : m'.directory_ = substr path 0 (find_last_of path '/') := hl.dir
  refine ⟨m', w', h, ?_, ?_, ?_⟩
  · intro pre suf hsplit hsuf
    rw [hdir]
    exact substr_find_last_of_slash path pre suf hsplit hsuf
  · intro hno
    rw [hdir]
    exact substr_find_last_of_no_slash path hno hlen
  · rw [hl.decoded, hdir]
    congr 1
    apply List.map_congr_left
    intro t _
    exact String.ext (resolve_data _ _)

/-- Witness for C10: the model path `models/crate/crate.obj`, and the path `crate.obj`
without directory part. -/
theorem Model_ctor_directory_witness :
    (∃ m' w', Model.ctor demoEnv "models/crate/crate.obj" false World.empty = some (m', w') ∧
      (∀ pre suf, ("models/crate/crate.obj" : String).data = pre ++ '/' :: suf → '/' ∉ suf →
        m'.directory_ = ⟨pre⟩) ∧
      ('/' ∉ ("models/crate/crate.obj" : String).data →
        m'.directory_ = "models/crate/crate.obj") ∧
      decodedFiles w'.calls
        = decodedFiles World.empty.calls
          ++ m'.textures_loaded_.map (fun t => ⟨m'.directory_.data ++ '/' :: t.path.data⟩)) ∧
    (Model.ctor demoEnv "models/crate/crate.obj" false World.empty).map
        (fun r => (r.1.directory_, decodedFiles r.2.calls))
      = some ("models/crate",
          ["models/crate/wood.png", "models/crate/gray.png", "models/crate/bump.png"]) ∧
    (Model.ctor demoEnv "crate.obj" false World.empty).map
        (fun r => (r.1.directory_, decodedFiles r.2.calls))
      = some ("crate.obj", ["crate.obj/wood.png", "crate.obj/gray.png", "crate.obj/bump.png"]) :=
  ⟨Model_ctor_directory demoEnv "models/crate/crate.obj" false World.empty demoScene demoRoot
     rfl (by decide) rfl (by decide) (by decide),
   by decide, by decide⟩

end LearnOpenGL
